import Mathlib

/-!
Verification of the ezdxf DIMENSION subsystem: a shallow embedding of
`src/ezdxf/render/dimension.py`, `src/ezdxf/entities/dimstyle.py` and the
DIMENSION branch of `src/src/ezdxf/addons/drawing/frontend.py`, together with
theorems settling the specification claims about these modules.
-/

namespace Ezdxf

/-- Errors raised by the embedded Python code paths; `dxfValueError` and
`dxfUndefinedBlockError` carry the formatted message string. -/
inductive PyError where
  | dxfAttributeError : PyError
  | dxfValueError : String → PyError
  | dxfUndefinedBlockError : String → PyError
  | dxfKeyError : PyError
  | attributeError : PyError
  deriving DecidableEq, Repr

/-- Association-list lookup, modelling Python dict indexing / `dict.get` over
the string-keyed mappings used by the embedded code. -/
def assocFind {α : Type} : List (String × α) → String → Option α
  | [], _ => none
  | p :: rest, k => if p.1 = k then some p.2 else assocFind rest k

/-- Decidable equality for the embedded `Except` results, so concrete
outcomes can be checked by evaluation. -/
instance {e a : Type} [DecidableEq e] [DecidableEq a] : DecidableEq (Except e a) :=
  fun x y =>
    match x, y with
    | .ok u, .ok v =>
      if h : u = v then .isTrue (by rw [h]) else .isFalse (by simp [h])
    | .error u, .error v =>
      if h : u = v then .isTrue (by rw [h]) else .isFalse (by simp [h])
    | .ok _, .error _ => .isFalse (by simp)
    | .error _, .ok _ => .isFalse (by simp)

/-! ## DimStyleOverride (src/ezdxf/render/dimension.py, lines 20-47)

The resolver wraps a base DIMSTYLE entity plus a per-entity override dict and
memoizes resolved values.  The base style's `get_dxf_attrib(attribute, default)`
call is represented by a function `baseGet`: `some v` models a normal return
(the stored value, or the passed default when the attribute is merely unset),
`none` models a raised `DXFAttributeError` (the attribute requires a newer DXF
version than the document has).  The `DIMSTYLE_CHECKER.supports_dxf_attrib`
test (the checker entity lives in `ezdxf.modern.tableentries`, outside the
sources at hand) is represented by the predicate `supports` for the newest
supported format version. -/

/-- Mutable state of a `DimStyleOverride` instance: the override dict and the
memo cache, both string-keyed. -/
structure DimStyleOverride (V : Type) where
  override : List (String × V)
  cache : List (String × V)
  deriving DecidableEq, Repr

/-- `DimStyleOverride.get(attribute, default)`: cached value first; then the
validity check against the newest-version checker; then the override dict;
then the base style, with the caller's default substituted when the base
style raises `DXFAttributeError`; every resolved value is written to the
cache. -/
def DimStyleOverride.get {V : Type}
    (supports : String → Bool)
    (baseGet : String → V → Option V)
    (o : DimStyleOverride V) (attrib : String) (default : V) :
    Except PyError (V × DimStyleOverride V) :=
  match assocFind o.cache attrib with
  | some v => .ok (v, o)
  | none =>
    if ¬ supports attrib then
      .error .dxfAttributeError
    else
      let result :=
        match assocFind o.override attrib with
        | some v => v
        | none =>
          match baseGet attrib default with
          | some v => v
          | none => default
      .ok (result, ⟨o.override, (attrib, result) :: o.cache⟩)

/-! ## DimStyle.set_tolerance / DimStyle.set_limits
(src/ezdxf/entities/dimstyle.py, lines 514-588) -/

/-- The DIMSTYLE fields written by `set_tolerance` and `set_limits`. -/
structure ToleranceFields where
  dimtol : Int
  dimlim : Int
  dimtp : Rat
  dimtm : Rat
  dimtfac : Rat
  dimtzin : Nat
  dimtolj : Int
  dimtdec : Int
  deriving DecidableEq, Repr

/-- DIMZIN bit suppressing leading zeros (`ezdxf.lldxf.const`; value matches
the bit tested as `dimzin & 4` in `format_text`). -/
def DIMZIN_SUPPRESSES_LEADING_ZEROS : Nat := 4

/-- DIMZIN bit suppressing trailing zeros (`ezdxf.lldxf.const`; value matches
the bit tested as `dimzin & 8` in `format_text`). -/
def DIMZIN_SUPPRESSES_TRAILING_ZEROS : Nat := 8

/-- Modelled from the spec: the `const.MTEXT_INLINE_ALIGN` mapping of
tolerance-alignment names to MTEXT codes (`ezdxf.lldxf.const` is not among the
sources); only its keys matter for the claims, the codes are representative. -/
def MTEXT_INLINE_ALIGN : List (String × Int) :=
  [("TOP", 1), ("MIDDLE", 2), ("BOTTOM", 3)]

/-- `DimStyle.set_tolerance`: enables tolerance display and disables limits
display, then writes the remaining tolerance-format fields in source order.
A `KeyError` from the alignment lookup aborts the call but keeps the writes
already performed (Python mutates field by field); the pair returns the
resulting fields and the error, if any. -/
def DimStyle.set_tolerance (s : ToleranceFields) (upper : Rat) (lower : Option Rat)
    (hfactor : Option Rat) (align : Option String) (dec : Option Int)
    (leading_zeros trailing_zeros : Option Bool) :
    ToleranceFields × Option PyError :=
  let s := { s with dimtol := 1, dimlim := 0, dimtp := upper }
  let s :=
    match lower with
    | some l => { s with dimtm := l }
    | none => { s with dimtm := upper }
  let s :=
    match hfactor with
    | some h => { s with dimtfac := h }
    | none => s
  let s :=
    if leading_zeros.isSome ∨ trailing_zeros.isSome then
      let dimtzin := if leading_zeros = some false then DIMZIN_SUPPRESSES_LEADING_ZEROS else 0
      let dimtzin :=
        if trailing_zeros = some false then dimtzin + DIMZIN_SUPPRESSES_TRAILING_ZEROS
        else dimtzin
      { s with dimtzin := dimtzin }
    else s
  match align with
  | some a =>
    match assocFind MTEXT_INLINE_ALIGN a.toUpper with
    | some code =>
      let s := { s with dimtolj := code }
      match dec with
      | some d => ({ s with dimtdec := d }, none)
      | none => (s, none)
    | none => (s, some .dxfKeyError)
  | none =>
    match dec with
    | some d => ({ s with dimtdec := d }, none)
    | none => (s, none)

/-- `DimStyle.set_limits`: enables limits display and disables tolerance
display, then writes the remaining limit-format fields in source order,
forcing `dimtolj` to the bottom default. -/
def DimStyle.set_limits (s : ToleranceFields) (upper lower : Rat) (hfactor : Rat)
    (dec : Option Int) (leading_zeros trailing_zeros : Option Bool) :
    ToleranceFields :=
  let s := { s with dimlim := 1, dimtol := 0, dimtp := upper, dimtm := lower, dimtfac := hfactor }
  let s :=
    if leading_zeros.isSome ∨ trailing_zeros.isSome then
      let dimtzin := if leading_zeros = some false then DIMZIN_SUPPRESSES_LEADING_ZEROS else 0
      let dimtzin :=
        if trailing_zeros = some false then dimtzin + DIMZIN_SUPPRESSES_TRAILING_ZEROS
        else dimtzin
      { s with dimtzin := dimtzin }
    else s
  let s := { s with dimtolj := 0 }
  match dec with
  | some d => { s with dimtdec := d }
  | none => s

/-! ## DimensionBase.get_text (src/ezdxf/render/dimension.py, lines 93-100) -/

/-- `DimensionBase.get_text(measurement)`: the entity's `text` attribute
controls the label; `fmt` stands for `self.format_text`. -/
def DimensionBase.get_text {α : Type} (fmt : α → String) (text : String)
    (measurement : α) : String :=
  if text = " " then ""
  else if text = "" ∨ text = "<>" then fmt measurement
  else text

/-! ## Frontend DIMENSION branch
(src/src/ezdxf/addons/drawing/frontend.py, lines 210-224) -/

/-- A drawable child entity as the drawing frontend sees it; transparency
defaults to 1.0 (fully transparent) before the frontend overrides it. -/
structure ChildEntity where
  dxftype : String
  transparency : Rat
  deriving DecidableEq, Repr

/-- DIMENSION branch of `_draw_composite_entity`: expand the entity via
`virtual_entities()` (represented by its outcome), set each child's
transparency to 0.0, and return the children handed to `draw_entity`; if the
expansion raises, nothing is drawn. -/
def draw_composite_dimension (virtual_entities : Except String (List ChildEntity)) :
    List ChildEntity :=
  match virtual_entities with
  | .error _ => []
  | .ok cs => cs.map (fun c => { c with transparency := 0 })

/-! ## format_text (src/ezdxf/render/dimension.py, lines 338-363)

The helpers `xround` and `suppress_zeros` live in `ezdxf.algebra` /
`ezdxf.tools`, outside the sources at hand, and are modelled from the spec;
`raise_decimals` (spec: out-of-scope external collaborator) is passed in as a
function argument.  Numeric values are rationals; Python's fixed-point float
formatting is modelled by exact decimal rounding (half to even). -/

/-- Round the fraction `n / d` (with `d > 0`) half-to-even to an integer, as
Python's fixed-point float formatting does on the exactly representable
values exercised here. -/
def roundDecHalfEven (n d : Int) : Int :=
  let f := Int.fdiv n d
  let r2 := 2 * (n - f * d)
  if r2 < d then f
  else if d < r2 then f + 1
  else if f % 2 = 0 then f else f + 1

/-- Left-pad a digit string with zeros to the given length. -/
def padZeros (s : String) (n : Nat) : String :=
  if s.length < n then String.mk (List.replicate (n - s.length) '0') ++ s else s

/-- Python fixed-point formatting of a rational with `dec` decimal places
(the format spec used by `format_text`; the bare spec defaults to six
places). -/
def formatFixed (value : Rat) (dec : Nat) : String :=
  let m := roundDecHalfEven ((value.num.natAbs : Int) * (10 : Int) ^ dec) (value.den : Int)
  let digits := toString m.toNat
  let sign := if value < 0 then "-" else ""
  if dec = 0 then sign ++ digits
  else
    let digits := padZeros digits (dec + 1)
    let k := digits.length - dec
    sign ++ String.mk (digits.toList.take k) ++ "." ++ String.mk (digits.toList.drop k)

/-- Modelled from the spec: `ezdxf.algebra.xround(value, rounding)` snaps the
value to the nearest multiple of the rounding unit (half up). -/
def xround (value rounding : Rat) : Rat :=
  if rounding = 0 then value
  else rounding * (Int.fdiv (value / rounding + 1/2).num ((value / rounding + 1/2).den : Int) : Rat)

/-- Modelled from the spec: `ezdxf.tools.suppress_zeros(text, leading, pending)`:
leading suppression strips the zero digits in front of the decimal point
("0.5" becomes ".5"); pending (trailing) suppression strips trailing zeros
after the decimal point and a then-dangling decimal point. -/
def suppress_zeros (text : String) (leading pending : Bool) : String :=
  let t := if leading then text.toList.dropWhile (fun c => c = '0') else text.toList
  if pending && t.contains '.' then
    let t2 := t.reverse.dropWhile (fun c => c = '0')
    let t2 :=
      match t2 with
      | '.' :: rest => rest
      | other => other
    String.mk t2.reverse
  else String.mk t

/-- Does `pat` occur as a substring of `s`? Models Python's `in` test on
strings. -/
def containsSub (s pat : String) : Bool :=
  (List.range (s.length + 1)).any (fun i => pat.toList.isPrefixOf (s.toList.drop i))

/-- Fuel-based worker for `replaceFirst`. -/
def replaceFirstAux (pat repl : List Char) : Nat → List Char → List Char
  | 0, s => s
  | _ + 1, [] => []
  | fuel + 1, c :: cs =>
    if pat.isPrefixOf (c :: cs) then repl ++ (c :: cs).drop pat.length
    else c :: replaceFirstAux pat repl fuel cs

/-- Replace the first occurrence of `pat` in `s` by `repl`: models
`dimpost.replace(token, slot, 1)` followed by `str.format` in `format_text`'s
template step. -/
def replaceFirst (s pat repl : String) : String :=
  String.mk (replaceFirstAux pat.toList repl.toList s.length s.toList)

/-- Fuel-based worker for `replaceAll`. -/
def replaceAllAux (pat repl : List Char) : Nat → List Char → List Char
  | 0, s => s
  | _ + 1, [] => []
  | fuel + 1, c :: cs =>
    if pat ≠ [] ∧ pat.isPrefixOf (c :: cs) then
      repl ++ replaceAllAux pat repl fuel ((c :: cs).drop pat.length)
    else c :: replaceAllAux pat repl fuel cs

/-- Replace every occurrence of `pat` in `s` by `repl`: models Python's
`str.replace` used for the decimal-separator substitution. -/
def replaceAll (s pat repl : String) : String :=
  String.mk (replaceAllAux pat.toList repl.toList s.length s.toList)

/-- `format_text(value, dimrnd, dimdec, dimzin, dimdsep, dimpost, raisedec)`:
optional snapping, fixed-point formatting (six places and forced
trailing-zero suppression when `dimdec` is unset), zero suppression per the
DIMZIN bits, optional stacked-decimal transform, separator replacement, and
template substitution (an error for a non-empty template without the
placeholder token). -/
def format_text (raisedecFn : String → String) (value : Rat) (dimrnd : Option Rat)
    (dimdec : Option Nat) (dimzin : Nat) (dimdsep : String) (dimpost : String)
    (raisedec : Bool) : Except PyError String :=
  let value :=
    match dimrnd with
    | some r => xround value r
    | none => value
  let p :=
    match dimdec with
    | none => (6, dimzin ||| 8)
    | some d => (d, dimzin)
  let text := formatFixed value p.1
  let leading := p.2 &&& 4 ≠ 0
  let pending := p.2 &&& 8 ≠ 0
  let text := suppress_zeros text leading pending
  let text := if raisedec then raisedecFn text else text
  let text := if dimdsep ≠ "." then replaceAll text "." dimdsep else text
  if dimpost ≠ "" then
    if containsSub dimpost "<>" then
      .ok (replaceFirst dimpost "<>" text)
    else
      .error (.dxfValueError ("Invalid dimpost string: \"" ++ dimpost ++ "\""))
  else
    .ok text

/-! ## Document model for the DIMSTYLE handle indirections

`_set_blk_handle` / `_get_arrow_block_name` and the linetype/text-style
getters (src/ezdxf/entities/dimstyle.py) resolve names through the document's
blocks table and entity database.  The `ezdxf.render.arrows` module is not
among the sources, so `ARROWS` is modelled from the spec. -/

/-- The document as the handle indirections see it: `blocks` maps block names
to block-record handles, `entitydb` maps handles to the referenced record's
name. -/
structure Doc where
  blocks : List (String × String)
  entitydb : List (String × String)
  deriving DecidableEq, Repr

/-- Invariant of the modelled document: every block's record handle is the
handle derived from its name and resolves through the entity database back to
that block's name. -/
def Doc.WF (doc : Doc) : Prop :=
  ∀ p ∈ doc.blocks, p.2 = "H" ++ p.1 ∧ assocFind doc.entitydb p.2 = some p.1

/-- Modelled from the spec: the recognized built-in arrow names of
`ezdxf.render.arrows`; the closed-filled arrow is the empty name, the CAD
format's implicit default. -/
def acadArrows : List String := ["", "DOT", "OPEN30", "OBLIQUE", "ARCHTICK"]

/-- Modelled from the spec: `ARROWS.closed_filled`, the sentinel arrow that
needs no block. -/
def ARROWS.closed_filled : String := ""

/-- Modelled from the spec: `ARROWS.is_acad_arrow(name)`. -/
def ARROWS.is_acad_arrow (name : String) : Bool :=
  acadArrows.contains name

/-- Modelled from the spec: the block name under which a built-in arrow's
auto-created block definition is stored. -/
def arrowBlockName (a : String) : String := "_" ++ a

/-- Modelled from the spec: `ARROWS.create_block` creates the arrow's block
definition (with a fresh block-record handle derived from the block name) on
demand and returns its block name. -/
def ARROWS.create_block (doc : Doc) (a : String) : Doc × String :=
  let bn := arrowBlockName a
  match assocFind doc.blocks bn with
  | some _ => (doc, bn)
  | none =>
    let h := "H" ++ bn
    (⟨(bn, h) :: doc.blocks, (h, bn) :: doc.entitydb⟩, bn)

/-- Modelled from the spec: `ARROWS.arrow_name(block_name)` re-maps an arrow
block's name back to the canonical built-in arrow name, returning all other
names verbatim. -/
def ARROWS.arrow_name (block_name : String) : String :=
  let tail := String.mk (block_name.toList.drop 1)
  if block_name.toList.head? = some '_' ∧ tail ∈ acadArrows then tail
  else block_name

/-- The DIMSTYLE state touched by the arrow and linetype/text-style handle
code: the string-valued handle attributes (an absent key models an unset DXF
attribute) and `dimtsz`. -/
structure ArrowFields where
  attrs : List (String × String)
  dimtsz : Rat
  deriving DecidableEq, Repr

/-- `set_dxf_attrib` for a handle attribute. -/
def ArrowFields.set_dxf_attrib (s : ArrowFields) (attr value : String) : ArrowFields :=
  { s with attrs := (attr, value) :: s.attrs }

/-- `self.dxf.discard(attr)`: removes the attribute entirely. -/
def ArrowFields.discard (s : ArrowFields) (attr : String) : ArrowFields :=
  { s with attrs := s.attrs.filter (fun p => p.1 != attr) }

/-- `get_block_name_by_handle` (dimstyle.py, lines 602-609): entity-database
lookup with a default for dangling handles. -/
def get_block_name_by_handle (handle : String) (doc : Doc) (default : String) : String :=
  match assocFind doc.entitydb handle with
  | none => default
  | some name => name

/-- Second half of `_set_blk_handle`: look the block name up in the blocks
table and either store its record handle or raise. -/
def DimStyle.store_blk_handle (doc : Doc) (s : ArrowFields) (attr arrow_name block_name : String) :
    Except PyError (Doc × ArrowFields) :=
  match assocFind doc.blocks block_name with
  | some handle => .ok (doc, s.set_dxf_attrib attr handle)
  | none => .error (.dxfValueError ("Block " ++ arrow_name ++ " does not exist."))

/-- `DimStyle._set_blk_handle(attr, arrow_name)` (dimstyle.py, lines 208-227):
the closed-filled sentinel discards the handle attribute; a built-in arrow
auto-creates its block; any other name must already be a block, else
`DXFValueError` with the unquoted message `Block <name> does not exist.`. -/
def DimStyle.set_blk_handle (doc : Doc) (s : ArrowFields) (attr arrow_name : String) :
    Except PyError (Doc × ArrowFields) :=
  if arrow_name = ARROWS.closed_filled then
    .ok (doc, s.discard attr)
  else if ARROWS.is_acad_arrow arrow_name then
    let p := ARROWS.create_block doc arrow_name
    DimStyle.store_blk_handle p.1 s attr arrow_name p.2
  else
    DimStyle.store_blk_handle doc s attr arrow_name arrow_name

/-- `DimStyle._get_arrow_block_name(name)` (dimstyle.py, lines 229-236): an
unset or zero handle is the closed-filled default; otherwise the handle's
block name, re-mapped through `ARROWS.arrow_name`. -/
def DimStyle.get_arrow_block_name (doc : Doc) (s : ArrowFields) (name : String) : String :=
  match assocFind s.attrs name with
  | none => ARROWS.closed_filled
  | some handle =>
    if handle = "0" then ARROWS.closed_filled
    else ARROWS.arrow_name (get_block_name_by_handle handle doc "")

/-- `DimStyle.set_dimblk`. -/
def DimStyle.set_dimblk (doc : Doc) (s : ArrowFields) (name : String) :
    Except PyError (Doc × ArrowFields) :=
  DimStyle.set_blk_handle doc s "dimblk_handle" name

/-- `DimStyle.get_dimblk`. -/
def DimStyle.get_dimblk (doc : Doc) (s : ArrowFields) : String :=
  DimStyle.get_arrow_block_name doc s "dimblk_handle"

/-- `DimStyle.set_dimblk1`. -/
def DimStyle.set_dimblk1 (doc : Doc) (s : ArrowFields) (name : String) :
    Except PyError (Doc × ArrowFields) :=
  DimStyle.set_blk_handle doc s "dimblk1_handle" name

/-- `DimStyle.get_dimblk1`. -/
def DimStyle.get_dimblk1 (doc : Doc) (s : ArrowFields) : String :=
  DimStyle.get_arrow_block_name doc s "dimblk1_handle"

/-- `DimStyle.set_dimblk2`. -/
def DimStyle.set_dimblk2 (doc : Doc) (s : ArrowFields) (name : String) :
    Except PyError (Doc × ArrowFields) :=
  DimStyle.set_blk_handle doc s "dimblk2_handle" name

/-- `DimStyle.get_dimblk2`. -/
def DimStyle.get_dimblk2 (doc : Doc) (s : ArrowFields) : String :=
  DimStyle.get_arrow_block_name doc s "dimblk2_handle"

/-- `DimStyle.set_arrows(blk, blk1, blk2)` (dimstyle.py, lines 342-364): sets
the three arrow attributes (each through `_set_blk_handle`), forces
`dimtsz = 0`, then re-checks that every non-built-in, non-empty name is an
existing block; note the raise in that loop formats `blk`, not the loop
variable. -/
def DimStyle.set_arrows (doc : Doc) (s : ArrowFields) (blk blk1 blk2 : String) :
    Except PyError (Doc × ArrowFields) :=
  match DimStyle.set_blk_handle doc s "dimblk_handle" blk with
  | .error e => .error e
  | .ok r0 =>
    match DimStyle.set_blk_handle r0.1 r0.2 "dimblk1_handle" blk1 with
    | .error e => .error e
    | .ok r1 =>
      match DimStyle.set_blk_handle r1.1 r1.2 "dimblk2_handle" blk2 with
      | .error e => .error e
      | .ok r2 =>
        let doc := r2.1
        let s := { r2.2 with dimtsz := 0 }
        match [blk, blk1, blk2].find? (fun b =>
            !(ARROWS.is_acad_arrow b) && b != "" && (assocFind doc.blocks b).isNone) with
        | some _ => .error (.dxfValueError ("BLOCK \"" ++ blk ++ "\" does not exist."))
        | none => .ok (doc, s)

/-! ## Linetype / text-style name getters
(src/ezdxf/entities/dimstyle.py, lines 238-244, 274-296, 591-599) -/

/-- `get_text_style_by_handle(handle, doc, default)` with `default`
"STANDARD": entity-database lookup, logging a warning and returning the
default when the handle does not resolve.  The second component collects the
warnings logged. -/
def get_text_style_by_handle (handle : String) (doc : Doc) (default : String) :
    String × List String :=
  match assocFind doc.entitydb handle with
  | none => (default, ["Invalid text style handle \"" ++ handle ++ "\"."])
  | some name => (name, [])

/-- `DimStyle.get_text_style` (dimstyle.py, lines 238-244): resolves
`dimtxsty_handle` through the entity database; an unset handle logs a warning
and returns "Standard". -/
def DimStyle.get_text_style (doc : Doc) (s : ArrowFields) (styleName : String) :
    String × List String :=
  match assocFind s.attrs "dimtxsty_handle" with
  | some handle => get_text_style_by_handle handle doc "STANDARD"
  | none => ("Standard", ["DIMSTYLE \"" ++ styleName ++ "\": text style handle not set."])

/-- `DimStyle.get_ltype_name(dimvar)` (dimstyle.py, lines 274-283): returns
`None` when the handle attribute is unset; when a handle is stored, the code
reads `self.ocrawing`, an attribute `DimStyle` never defines, so Python
raises `AttributeError` before any document lookup can happen. -/
def DimStyle.get_ltype_name (_doc : Doc) (s : ArrowFields) (dimvar : String) :
    Except PyError (Option String) :=
  match assocFind s.attrs dimvar with
  | none => .ok none
  | some _ => .error .attributeError

/-- `DimStyle.get_linetype`. -/
def DimStyle.get_linetype (doc : Doc) (s : ArrowFields) : Except PyError (Option String) :=
  DimStyle.get_ltype_name doc s "dimltype_handle"

/-- `DimStyle.get_ext1_linetype`. -/
def DimStyle.get_ext1_linetype (doc : Doc) (s : ArrowFields) : Except PyError (Option String) :=
  DimStyle.get_ltype_name doc s "dimltex1_handle"

/-- `DimStyle.get_ext2_linetype`. -/
def DimStyle.get_ext2_linetype (doc : Doc) (s : ArrowFields) : Except PyError (Option String) :=
  DimStyle.get_ltype_name doc s "dimltex2_handle"

/-! ## 2D geometry for the linear dimension renderer
(src/ezdxf/render/dimension.py, lines 169-283)

The vector/ray primitives live in `ezdxf.algebra`, which the spec declares an
external collaborator; they are modelled from the spec over the reals. -/

/-- A 2D vector / point (`ezdxf.algebra.Vector`, z = 0 throughout the linear
renderer). -/
@[ext]
structure Vec2 where
  x : ℝ
  y : ℝ

instance : Add Vec2 := ⟨fun a b => ⟨a.x + b.x, a.y + b.y⟩⟩

instance : Sub Vec2 := ⟨fun a b => ⟨a.x - b.x, a.y - b.y⟩⟩

instance : Neg Vec2 := ⟨fun a => ⟨-a.x, -a.y⟩⟩

instance : SMul ℝ Vec2 := ⟨fun c a => ⟨c * a.x, c * a.y⟩⟩

instance : Zero Vec2 := ⟨⟨0, 0⟩⟩

/-- Modelled from the spec: `Vector.magnitude`. -/
noncomputable def Vec2.magnitude (v : Vec2) : ℝ :=
  Real.sqrt (v.x ^ 2 + v.y ^ 2)

/-- Modelled from the spec: `Vector.normalize(length)` scales the vector to
the given length. -/
noncomputable def Vec2.normalizeTo (v : Vec2) (len : ℝ) : Vec2 :=
  (len / v.magnitude) • v

/-- Modelled from the spec: `Vector.orthogonal()` (counterclockwise). -/
def Vec2.orthogonal (v : Vec2) : Vec2 := ⟨-v.y, v.x⟩

/-- Modelled from the spec: `Vector.lerp(other, factor)`; the renderer calls
it with the default factor one half. -/
def Vec2.lerp (a b : Vec2) (factor : ℝ) : Vec2 := a + factor • (b - a)

/-- 2D cross product, the scalar `a.x * b.y - a.y * b.x`. -/
def Vec2.cross (a b : Vec2) : ℝ := a.x * b.y - a.y * b.x

/-- Modelled from the spec: the unit direction vector of a `Ray2D` built from
a point and an angle. -/
noncomputable def dirVec (angle : ℝ) : Vec2 := ⟨Real.cos angle, Real.sin angle⟩

/-- Modelled from the spec: `Ray2D.intersect` for the ray through `p` with
direction `u` and the ray through `q` with direction `w` (the renderer only
intersects non-parallel rays). -/
noncomputable def intersectRays (p u q w : Vec2) : Vec2 :=
  p + ((Vec2.cross (q - p) w) / (Vec2.cross u w)) • u

/-- `math.radians`. -/
noncomputable def radians (deg : ℝ) : ℝ := deg * Real.pi / 180

/-- Modelled from the spec: `ARROWS.oblique`, the tick arrow name. -/
def ARROWS.oblique : String := "OBLIQUE"

/-- The DIMENSION entity attributes the linear renderer reads and writes.
`angle` and `text_rotation` fold in the Python defaults used by
`get_dxf_attrib(name, 0)`. -/
structure DimEntity where
  angle : ℝ
  defpoint : Vec2
  defpoint2 : Vec2
  defpoint3 : Vec2
  text_midpoint : Option Vec2
  text : String
  text_rotation : ℝ
  color : Int
  layer : String

/-- The resolved style values the renderer obtains through
`DimStyleOverride.get`; each field is the result of the corresponding `get`
call (defaults already applied, the color fields fall back to the entity
color). -/
structure ResolvedStyle where
  dimtxt : ℝ
  dimse1 : Bool
  dimse2 : Bool
  dimtsz : ℝ
  dimsah : Bool
  dimblk : Option String
  dimblk1 : Option String
  dimblk2 : Option String
  dimlfac : ℝ
  dimclrt : Int
  dimclrd : Int
  dimclre : Int
  dimgap : ℝ
  dimtad : Int
  dimasz : ℝ
  dimdle : ℝ
  dimexo : ℝ
  dimexe : ℝ

/-- User coordinate system as the renderer uses it: the `to_wcs` / `to_ocs`
transforms (`PassTroughUCS` when none is supplied). -/
structure UCS2 where
  to_wcs : Vec2 → Vec2
  to_ocs : Vec2 → Vec2

/-- `PassTroughUCS`: the identity coordinate system substituted when the
caller supplies no UCS. -/
def PassTroughUCS : UCS2 := ⟨id, id⟩

/-- The primitives the renderer appends to the anonymous block. -/
inductive Prim where
  | line (start stop : Vec2) (color : Int)
  | text (content : String) (pos : Vec2) (rotation : ℝ) (height : ℝ) (color : Int)
  | arrow (name : String) (insert : Vec2) (rotation size : ℝ) (color : Int)
  | arrowref (name : String) (insert : Vec2) (rotation scale : ℝ) (reverse : Bool) (color : Int)
  | blockref (name : String) (insert : Vec2) (rotation scale : ℝ) (color : Int)
  | point (location : Vec2) (layer : String)

/-- The renderer's fixed collaborators: the resolved style, the UCS, the
measurement formatter (`self.format_text`), the arrow predicate
`ARROWS.has_extension_line`, the document's block names, and what
`add_arrow_blockref` returns as the adjusted line endpoint. -/
structure RenderCfg where
  st : ResolvedStyle
  ucs : UCS2
  fmt : ℝ → String
  hasExt : String → Bool
  blocks : List String
  arrowConnect : String → Vec2 → ℝ → ℝ → Bool → Vec2

/-- `DimensionBase.get_arrow_names` (dimension.py, lines 102-114). -/
noncomputable def DimensionBase.get_arrow_names (st : ResolvedStyle) : Option String × Option String :=
  if st.dimtsz = 0 then
    if st.dimsah then (st.dimblk1, st.dimblk2)
    else (st.dimblk, st.dimblk)
  else (none, none)

/-- `DimensionBase.add_blockref` (dimension.py, lines 130-149): a built-in
arrow name goes through `add_arrow_blockref`, whose returned connection point
becomes the adjusted line endpoint; other names must be existing blocks
(inserted at the OCS point, returning the insert point unchanged); a missing
block (including the `None` arrow name) raises `DXFUndefinedBlockError`. -/
def DimensionBase.add_blockref (cfg : RenderCfg) (name : Option String) (insert : Vec2)
    (scale rotation : ℝ) (reverse : Bool) : Except PyError (Vec2 × Prim) :=
  match name with
  | some n =>
    if ARROWS.is_acad_arrow n then
      .ok (cfg.arrowConnect n insert scale rotation reverse,
        Prim.arrowref n insert rotation scale reverse cfg.st.dimclrd)
    else if cfg.blocks.contains n then
      .ok (insert, Prim.blockref n (cfg.ucs.to_ocs insert) rotation scale cfg.st.dimclrd)
    else
      .error (.dxfUndefinedBlockError n)
  | none => .error (.dxfUndefinedBlockError "None")

/-- `LinearDimension.add_measurement_text` plus the `add_text` call it makes
(dimension.py, lines 151-159, 223-229): the text is placed at the OCS
position with the entity rotation plus text rotation. -/
def LinearDimension.add_measurement_text (cfg : RenderCfg) (dim_text : String)
    (pos : Vec2) (angle text_rotation : ℝ) : Prim :=
  Prim.text dim_text (cfg.ucs.to_ocs pos) (angle + text_rotation) cfg.st.dimtxt cfg.st.dimclrt

/-- `LinearDimension.get_text_midpoint` (dimension.py, lines 272-283). -/
noncomputable def LinearDimension.get_text_midpoint (st : ResolvedStyle)
    (start stop : Vec2) : Vec2 :=
  let dist0 := st.dimtxt / 2 + st.dimgap
  let dist := if st.dimtad = 0 then 0 else if st.dimtad = 4 then -dist0 else dist0
  let base := stop - start
  let ortho := base.orthogonal.normalizeTo dist
  start.lerp stop (1 / 2) + ortho

/-- Text placement step of `LinearDimension.render` (dimension.py, lines
186-194): reuse the stored text midpoint, else compute and store it. -/
noncomputable def LinearDimension.renderText (cfg : RenderCfg) (e : DimEntity) (dim_text : String)
    (dimline_start dimline_stop : Vec2) : DimEntity × List Prim :=
  if dim_text ≠ "" then
    match e.text_midpoint with
    | some pos =>
      (e, [LinearDimension.add_measurement_text cfg dim_text pos e.angle e.text_rotation])
    | none =>
      let pos := LinearDimension.get_text_midpoint cfg.st dimline_start dimline_stop
      ({ e with text_midpoint := some pos },
       [LinearDimension.add_measurement_text cfg dim_text pos e.angle e.text_rotation])
  else (e, [])

/-- `LinearDimension.add_extension_line` (dimension.py, lines 244-253). -/
noncomputable def LinearDimension.add_extension_line (cfg : RenderCfg)
    (start stop : Vec2) : Prim :=
  let direction := (stop - start).normalizeTo 1
  let start := start + cfg.st.dimexo • direction
  let stop := stop + cfg.st.dimexe • direction
  Prim.line (cfg.ucs.to_wcs start) (cfg.ucs.to_wcs stop) cfg.st.dimclre

/-- Extension-line step of `LinearDimension.render` (dimension.py, lines
196-202): each side only when not suppressed. -/
noncomputable def LinearDimension.renderExtLines (cfg : RenderCfg) (e : DimEntity)
    (dimline_start dimline_stop : Vec2) : List Prim :=
  (if ¬cfg.st.dimse1 then [LinearDimension.add_extension_line cfg e.defpoint2 dimline_start]
   else []) ++
  (if ¬cfg.st.dimse2 then [LinearDimension.add_extension_line cfg e.defpoint3 dimline_stop]
   else [])

/-- `LinearDimension.add_arrows` (dimension.py, lines 255-270): a positive
tick size draws two double-size oblique ticks and keeps the endpoints;
otherwise two arrow block references are placed (the first reversed) and the
endpoints are replaced by the returned connection points. -/
noncomputable def LinearDimension.add_arrows (cfg : RenderCfg) (start stop : Vec2) (angle : ℝ)
    (blk1 blk2 : Option String) : Except PyError (Vec2 × Vec2 × List Prim) :=
  if cfg.st.dimtsz > 0 then
    .ok (start, stop,
      [Prim.arrow ARROWS.oblique start angle (cfg.st.dimtsz * 2) cfg.st.dimclrd,
       Prim.arrow ARROWS.oblique stop angle (cfg.st.dimtsz * 2) cfg.st.dimclrd])
  else
    match DimensionBase.add_blockref cfg blk1 start cfg.st.dimasz angle true with
    | .error err => .error err
    | .ok r1 =>
      match DimensionBase.add_blockref cfg blk2 stop cfg.st.dimasz angle false with
      | .error err => .error err
      | .ok r2 => .ok (r1.1, r2.1, [r1.2, r2.2])

/-- `LinearDimension.add_dimension_line` (dimension.py, lines 231-242): the
line is lengthened by `dimdle` beyond an endpoint when that end has no arrow
name or its arrow has a built-in extension-line visual, and the result is
emitted through `add_line` (WCS). -/
noncomputable def LinearDimension.add_dimension_line (cfg : RenderCfg)
    (start stop : Vec2) (blk1 blk2 : Option String) : Prim :=
  let direction := (stop - start).normalizeTo 1
  let extension := cfg.st.dimdle • direction
  let start := if blk1.elim true cfg.hasExt then start - extension else start
  let stop := if blk2.elim true cfg.hasExt then stop + extension else stop
  Prim.line (cfg.ucs.to_wcs start) (cfg.ucs.to_wcs stop) cfg.st.dimclrd

/-- `LinearDimension.add_defpoints` (dimension.py, lines 161-166). -/
def LinearDimension.add_defpoints (cfg : RenderCfg) (pts : List Vec2) : List Prim :=
  pts.map (fun p => Prim.point (cfg.ucs.to_wcs p) "DEFPOINTS")

/-- `LinearDimension.defpoints_to_wcs` (dimension.py, lines 213-221): the
three definition points go to WCS, the text midpoint to OCS; a missing text
midpoint raises (`get_dxf_attrib` without a default). -/
def LinearDimension.defpoints_to_wcs (cfg : RenderCfg) (e : DimEntity) :
    Except PyError DimEntity :=
  match e.text_midpoint with
  | none => .error (.dxfValueError "text_midpoint")
  | some p =>
    .ok { e with
          defpoint := cfg.ucs.to_wcs e.defpoint,
          defpoint2 := cfg.ucs.to_wcs e.defpoint2,
          defpoint3 := cfg.ucs.to_wcs e.defpoint3,
          text_midpoint := some (cfg.ucs.to_ocs p) }

/-- `LinearDimension.render` (dimension.py, lines 170-211): construction
rays, dimension-line endpoints, measurement and label, text placement,
extension lines, arrows, trimmed dimension line, definition points, final
coordinate conversion. -/
noncomputable def LinearDimension.render (cfg : RenderCfg) (e : DimEntity) :
    Except PyError (DimEntity × List Prim) :=
  let angle := radians e.angle
  let u := dirVec angle
  let w := dirVec (angle + Real.pi / 2)
  let dimline_start := intersectRays e.defpoint u e.defpoint2 w
  let dimline_stop := intersectRays e.defpoint u e.defpoint3 w
  let e1 := { e with defpoint := dimline_start }
  let measurement := (dimline_start - dimline_stop).magnitude
  let dim_text := DimensionBase.get_text cfg.fmt e.text (measurement * cfg.st.dimlfac)
  let tp := LinearDimension.renderText cfg e1 dim_text dimline_start dimline_stop
  let e2 := tp.1
  let extPrims := LinearDimension.renderExtLines cfg e2 dimline_start dimline_stop
  let bb := DimensionBase.get_arrow_names cfg.st
  match LinearDimension.add_arrows cfg dimline_start dimline_stop e.angle bb.1 bb.2 with
  | .error err => .error err
  | .ok r =>
    let dimlinePrim := LinearDimension.add_dimension_line cfg r.1 r.2.1 bb.1 bb.2
    let defptPrims := LinearDimension.add_defpoints cfg [e2.defpoint, e2.defpoint2, e2.defpoint3]
    match LinearDimension.defpoints_to_wcs cfg e2 with
    | .error err => .error err
    | .ok e3 => .ok (e3, tp.2 ++ extPrims ++ r.2.2 ++ [dimlinePrim] ++ defptPrims)

/-- The text primitives among the renderer's output, for comparing text
positions across renders. -/
def textPrims : List Prim → List Prim
  | [] => []
  | p :: rest =>
    match p with
    | .text c pos rot h col => .text c pos rot h col :: textPrims rest
    | _ => textPrims rest

/-- The dimension-line start point `render` computes for an entity (the
intersection of the dimension-line ray with the first extension ray). -/
noncomputable def renderStart (e : DimEntity) : Vec2 :=
  intersectRays e.defpoint (dirVec (radians e.angle)) e.defpoint2
    (dirVec (radians e.angle + Real.pi / 2))

/-- The dimension-line end point `render` computes for an entity. -/
noncomputable def renderStop (e : DimEntity) : Vec2 :=
  intersectRays e.defpoint (dirVec (radians e.angle)) e.defpoint3
    (dirVec (radians e.angle + Real.pi / 2))

/-- The label text `render` computes for an entity. -/
noncomputable def renderDimText (cfg : RenderCfg) (e : DimEntity) : String :=
  DimensionBase.get_text cfg.fmt e.text
    ((renderStart e - renderStop e).magnitude * cfg.st.dimlfac)

/-- Example resolved style for the concrete render checks: text centered on
the dimension line, both extension lines suppressed, tick arrows, no
dimension-line extension. -/
noncomputable def exampleStyle : ResolvedStyle :=
  { dimtxt := 1, dimse1 := true, dimse2 := true, dimtsz := 1, dimsah := false,
    dimblk := none, dimblk1 := none, dimblk2 := none, dimlfac := 1,
    dimclrt := 7, dimclrd := 7, dimclre := 7, dimgap := 1, dimtad := 0,
    dimasz := 1, dimdle := 0, dimexo := 0, dimexe := 0 }

/-- Example renderer configuration over the pass-through UCS. -/
noncomputable def exampleCfg : RenderCfg :=
  { st := exampleStyle, ucs := PassTroughUCS, fmt := fun _ => "",
    hasExt := fun _ => true, blocks := [], arrowConnect := fun _ p _ _ _ => p }

/-- The example configuration with a unit dimension-line extension. -/
noncomputable def exampleCfgDle : RenderCfg :=
  { exampleCfg with st := { exampleStyle with dimdle := 1 } }

/-- Example DIMENSION entity: a horizontal dimension with a user text
override and no stored text midpoint. -/
noncomputable def exampleEntity : DimEntity :=
  { angle := 0, defpoint := ⟨0, 0⟩, defpoint2 := ⟨0, 0⟩, defpoint3 := ⟨3, 0⟩,
    text_midpoint := none, text := "T", text_rotation := 0, color := 7,
    layer := "L" }

/-- The example entity after one render: the defpoint resolved onto the
dimension line and the computed text midpoint stored. -/
noncomputable def exampleEntityAfter : DimEntity :=
  { angle := 0, defpoint := ⟨0, 0⟩, defpoint2 := ⟨0, 0⟩, defpoint3 := ⟨3, 0⟩,
    text_midpoint := some ⟨3 / 2, 0⟩, text := "T", text_rotation := 0, color := 7,
    layer := "L" }

/-- The primitives one render of the example entity produces. -/
noncomputable def exampleOut : List Prim :=
  [Prim.text "T" ⟨3 / 2, 0⟩ 0 1 7,
   Prim.arrow "OBLIQUE" ⟨0, 0⟩ 0 2 7,
   Prim.arrow "OBLIQUE" ⟨3, 0⟩ 0 2 7,
   Prim.line ⟨0, 0⟩ ⟨3, 0⟩ 7,
   Prim.point ⟨0, 0⟩ "DEFPOINTS",
   Prim.point ⟨0, 0⟩ "DEFPOINTS",
   Prim.point ⟨3, 0⟩ "DEFPOINTS"]

/-! ## Theorems -/

theorem assocFind_cons {α : Type} (k k' : String) (v : α) (l : List (String × α)) :
    assocFind ((k', v) :: l) k = if k' = k then some v else assocFind l k := rfl

theorem assocFind_cons_self {α : Type} (k : String) (v : α) (l : List (String × α)) :
    assocFind ((k, v) :: l) k = some v := by
  simp [assocFind]

theorem assocFind_mem {α : Type} {l : List (String × α)} {k : String} {v : α}
    (h : assocFind l k = some v) : (k, v) ∈ l := by
  induction l with
  | nil => simp [assocFind] at h
  | cons p rest ih =>
    rw [show assocFind (p :: rest) k = if p.1 = k then some p.2 else assocFind rest k from rfl] at h
    split at h
    case isTrue heq =>
      cases h
      cases p
      simp_all
    case isFalse hne =>
      exact List.mem_cons_of_mem _ (ih h)

theorem assocFind_eq_none {α : Type} {l : List (String × α)} {k : String}
    (h : assocFind l k = none) : ∀ v, (k, v) ∉ l := by
  induction l with
  | nil => simp
  | cons p rest ih =>
    rw [show assocFind (p :: rest) k = if p.1 = k then some p.2 else assocFind rest k from rfl] at h
    split at h
    case isTrue heq => cases h
    case isFalse hne =>
      intro v hv
      rcases List.mem_cons.mp hv with rfl | hv
      · exact hne rfl
      · exact ih h v hv

theorem assocFind_filter_ne {α : Type} (l : List (String × α)) (k : String) :
    assocFind (l.filter (fun p => p.1 != k)) k = none := by
  induction l with
  | nil => simp [assocFind]
  | cons p rest ih =>
    by_cases h : p.1 = k
    · simp [List.filter_cons, h, ih]
    · simp [List.filter_cons, h, assocFind, ih]

theorem Vec2.add_x (a b : Vec2) : (a + b).x = a.x + b.x := rfl

theorem Vec2.add_y (a b : Vec2) : (a + b).y = a.y + b.y := rfl

theorem Vec2.sub_x (a b : Vec2) : (a - b).x = a.x - b.x := rfl

theorem Vec2.sub_y (a b : Vec2) : (a - b).y = a.y - b.y := rfl

theorem Vec2.smul_x (c : ℝ) (a : Vec2) : (c • a).x = c * a.x := rfl

theorem Vec2.smul_y (c : ℝ) (a : Vec2) : (c • a).y = c * a.y := rfl

theorem Vec2.cross_sub (a b w : Vec2) :
    Vec2.cross (a - b) w = Vec2.cross a w - Vec2.cross b w := by
  simp only [Vec2.cross, Vec2.sub_x, Vec2.sub_y]
  ring

theorem Vec2.cross_add (a b w : Vec2) :
    Vec2.cross (a + b) w = Vec2.cross a w + Vec2.cross b w := by
  simp only [Vec2.cross, Vec2.add_x, Vec2.add_y]
  ring

theorem Vec2.cross_smul (c : ℝ) (a w : Vec2) :
    Vec2.cross (c • a) w = c * Vec2.cross a w := by
  simp only [Vec2.cross, Vec2.smul_x, Vec2.smul_y]
  ring

/-- Intersecting again from a point already on the dimension-line ray gives
the same intersection: the re-projection of `intersectRays p u q w` onto any
extension ray through `q'` agrees with projecting `p` directly (the two rays
have unit cross product). -/
theorem intersectRays_absorb (p q q' u w : Vec2) (h : Vec2.cross u w = 1) :
    intersectRays (intersectRays p u q w) u q' w = intersectRays p u q' w := by
  unfold intersectRays
  rw [h, div_one, div_one, div_one]
  have hc : Vec2.cross (q' - (p + Vec2.cross (q - p) w • u)) w =
      Vec2.cross (q' - p) w - Vec2.cross (q - p) w := by
    have e1 : q' - (p + Vec2.cross (q - p) w • u) =
        (q' - p) - Vec2.cross (q - p) w • u := by
      ext <;> simp only [Vec2.add_x, Vec2.add_y, Vec2.sub_x, Vec2.sub_y,
        Vec2.smul_x, Vec2.smul_y] <;> ring
    rw [e1, Vec2.cross_sub, Vec2.cross_smul, h, mul_one]
  rw [hc]
  ext <;> simp only [Vec2.add_x, Vec2.add_y, Vec2.sub_x, Vec2.sub_y,
    Vec2.smul_x, Vec2.smul_y] <;> ring

/-- The dimension-line direction and the extension-line direction (at the
angle plus ninety degrees) have cross product one. -/
theorem cross_dirVec (θ : ℝ) :
    Vec2.cross (dirVec θ) (dirVec (θ + Real.pi / 2)) = 1 := by
  simp only [Vec2.cross, dirVec, Real.sin_add, Real.cos_add,
    Real.sin_pi_div_two, Real.cos_pi_div_two]
  ring_nf
  nlinarith [Real.sin_sq_add_cos_sq θ]

theorem Vec2.magnitude_smul (c : ℝ) (v : Vec2) :
    (c • v).magnitude = |c| * v.magnitude := by
  unfold Vec2.magnitude
  simp only [Vec2.smul_x, Vec2.smul_y]
  rw [show (c * v.x) ^ 2 + (c * v.y) ^ 2 = c ^ 2 * (v.x ^ 2 + v.y ^ 2) by ring]
  rw [Real.sqrt_mul (sq_nonneg c), Real.sqrt_sq_eq_abs]

theorem Vec2.magnitude_pos {v : Vec2} (h : v ≠ 0) : 0 < v.magnitude := by
  unfold Vec2.magnitude
  apply Real.sqrt_pos.mpr
  by_cases hx : v.x = 0
  · have hy : v.y ≠ 0 := by
      intro hy
      apply h
      ext <;> simp [hx, hy]
      · rfl
      · rfl
    nlinarith [sq_nonneg v.x, pow_two_pos_of_ne_zero hy]
  · nlinarith [sq_nonneg v.y, pow_two_pos_of_ne_zero hx]

theorem Vec2.magnitude_normalizeTo_one {v : Vec2} (h : v ≠ 0) :
    (v.normalizeTo 1).magnitude = 1 := by
  unfold Vec2.normalizeTo
  rw [Vec2.magnitude_smul]
  have hm := Vec2.magnitude_pos h
  rw [abs_of_pos (by positivity)]
  field_simp

theorem Vec2.sub_ne_zero_of_ne {a b : Vec2} (h : a ≠ b) : a - b ≠ 0 := by
  intro h0
  apply h
  have hx := congrArg Vec2.x h0
  have hy := congrArg Vec2.y h0
  simp only [Vec2.sub_x, Vec2.sub_y] at hx hy
  ext
  · have : (0 : Vec2).x = 0 := rfl
    rw [this] at hx
    linarith
  · have : (0 : Vec2).y = 0 := rfl
    rw [this] at hy
    linarith

theorem exampleCfgDle_magnitude :
    ((⟨1, 0⟩ : Vec2) - ⟨0, 0⟩).magnitude = 1 := by
  unfold Vec2.magnitude
  simp only [Vec2.sub_x, Vec2.sub_y]
  norm_num

theorem exampleCfgDle_direction :
    ((⟨1, 0⟩ : Vec2) - ⟨0, 0⟩).normalizeTo 1 = ⟨1, 0⟩ := by
  unfold Vec2.normalizeTo
  rw [exampleCfgDle_magnitude]
  ext <;> simp [Vec2.smul_x, Vec2.smul_y, Vec2.sub_x, Vec2.sub_y]

/-- C2 counterexample: with `dimdle = 1` and an arrow type that has a
built-in extension-line visual on both ends, the code emits the segment from
(-1, 0) to (2, 0) — both endpoints moved OUTWARD by `dimdle` — while the
claim predicts the endpoints stay at the computed (0, 0) and (1, 0) because
both arrows have the extension visual. -/
theorem C2_counterexample :
    LinearDimension.add_dimension_line exampleCfgDle ⟨0, 0⟩ ⟨1, 0⟩
      (some "A") (some "A") = Prim.line ⟨-1, 0⟩ ⟨2, 0⟩ 7 ∧
    Prim.line (⟨-1, 0⟩ : Vec2) ⟨2, 0⟩ 7 ≠ Prim.line ⟨0, 0⟩ ⟨1, 0⟩ 7 := by
  constructor
  · unfold LinearDimension.add_dimension_line
    rw [show exampleCfgDle.st.dimdle = 1 from rfl]
    rw [exampleCfgDle_direction]
    simp only [Option.elim, show exampleCfgDle.hasExt "A" = true from rfl, if_true]
    rw [show exampleCfgDle.ucs = PassTroughUCS from rfl]
    unfold PassTroughUCS
    simp only [id]
    rw [show exampleCfgDle.st.dimclrd = 7 from rfl]
    congr 1 <;> ext <;>
      simp [Vec2.sub_x, Vec2.sub_y, Vec2.add_x, Vec2.add_y, Vec2.smul_x, Vec2.smul_y] <;>
      norm_num
  · intro h
    have hx := congrArg Vec2.x (congrArg (fun p : Prim =>
      match p with
      | .line s _ _ => s
      | _ => ⟨0, 0⟩) h)
    norm_num at hx

/-- C2 (amended): the dimension line is lengthened OUTWARD by `dimdle` (not
trimmed inward), and exactly on the ends whose arrow name is unset or whose
arrow type HAS the built-in extension-line visual (not on those lacking it);
each adjusted endpoint moves by exactly the absolute line-extension amount
along the unit dimension-line direction, the other endpoints stay at the
computed positions, and the per-end predicate is evaluated independently. -/
theorem C2_dimension_line_extension (cfg : RenderCfg) (start stop : Vec2)
    (blk1 blk2 : Option String) :
    (LinearDimension.add_dimension_line cfg start stop blk1 blk2 =
      Prim.line
        (cfg.ucs.to_wcs (if blk1.elim true cfg.hasExt then
            start - cfg.st.dimdle • ((stop - start).normalizeTo 1) else start))
        (cfg.ucs.to_wcs (if blk2.elim true cfg.hasExt then
            stop + cfg.st.dimdle • ((stop - start).normalizeTo 1) else stop))
        cfg.st.dimclrd) ∧
    (stop ≠ start →
      ((start - cfg.st.dimdle • ((stop - start).normalizeTo 1)) - start).magnitude =
          |cfg.st.dimdle| ∧
      ((stop + cfg.st.dimdle • ((stop - start).normalizeTo 1)) - stop).magnitude =
          |cfg.st.dimdle|) := by
  constructor
  · rfl
  · intro hne
    have hu := Vec2.magnitude_normalizeTo_one (Vec2.sub_ne_zero_of_ne hne)
    constructor
    · have hv : (start - cfg.st.dimdle • ((stop - start).normalizeTo 1)) - start =
          (-cfg.st.dimdle) • ((stop - start).normalizeTo 1) := by
        ext <;> simp only [Vec2.sub_x, Vec2.sub_y, Vec2.smul_x, Vec2.smul_y] <;> ring
      rw [hv, Vec2.magnitude_smul, hu, mul_one, abs_neg]
    · have hv : (stop + cfg.st.dimdle • ((stop - start).normalizeTo 1)) - stop =
          cfg.st.dimdle • ((stop - start).normalizeTo 1) := by
        ext <;> simp only [Vec2.sub_x, Vec2.sub_y, Vec2.add_x, Vec2.add_y,
          Vec2.smul_x, Vec2.smul_y] <;> ring
      rw [hv, Vec2.magnitude_smul, hu, mul_one]

/-- Witness for C2 (amended): at the concrete segment from (0,0) to (1,0) the
adjusted start endpoint moves by exactly the line-extension amount. -/
theorem C2_witness :
    ((⟨1, 0⟩ : Vec2) ≠ ⟨0, 0⟩) ∧
    (((⟨0, 0⟩ : Vec2) - exampleCfgDle.st.dimdle •
        (((⟨1, 0⟩ : Vec2) - ⟨0, 0⟩).normalizeTo 1)) - ⟨0, 0⟩).magnitude =
      |exampleCfgDle.st.dimdle| := by
  have hne : (⟨1, 0⟩ : Vec2) ≠ ⟨0, 0⟩ := by
    intro h
    have := congrArg Vec2.x h
    norm_num at this
  exact ⟨hne, ((C2_dimension_line_extension exampleCfgDle ⟨0, 0⟩ ⟨1, 0⟩
    (some "A") (some "A")).2 hne).1⟩

theorem PassTroughUCS_to_wcs (v : Vec2) : PassTroughUCS.to_wcs v = v := rfl

theorem PassTroughUCS_to_ocs (v : Vec2) : PassTroughUCS.to_ocs v = v := rfl

theorem textPrims_append (a b : List Prim) :
    textPrims (a ++ b) = textPrims a ++ textPrims b := by
  induction a with
  | nil => rfl
  | cons p rest ih => cases p <;> simp [textPrims, ih]

theorem textPrims_ext_single (cfg : RenderCfg) (a b : Vec2) :
    textPrims [LinearDimension.add_extension_line cfg a b] = [] := rfl

theorem textPrims_extLines (cfg : RenderCfg) (e : DimEntity) (a b : Vec2) :
    textPrims (LinearDimension.renderExtLines cfg e a b) = [] := by
  unfold LinearDimension.renderExtLines
  by_cases h1 : cfg.st.dimse1 <;> by_cases h2 : cfg.st.dimse2
  · rw [if_neg (by simp [h1]), if_neg (by simp [h2])]
    rfl
  · rw [if_neg (by simp [h1]), if_pos (by simp [h2])]
    rfl
  · rw [if_pos (by simp [h1]), if_neg (by simp [h2])]
    rfl
  · rw [if_pos (by simp [h1]), if_pos (by simp [h2])]
    rfl

theorem textPrims_dimline (cfg : RenderCfg) (a b : Vec2) (b1 b2 : Option String) :
    textPrims [LinearDimension.add_dimension_line cfg a b b1 b2] = [] := rfl

theorem textPrims_defpoints (cfg : RenderCfg) (pts : List Vec2) :
    textPrims (LinearDimension.add_defpoints cfg pts) = [] := by
  induction pts with
  | nil => rfl
  | cons p rest ih => simp [LinearDimension.add_defpoints, textPrims] at ih ⊢; exact ih

theorem add_blockref_no_text (cfg : RenderCfg) (name : Option String) (insert : Vec2)
    (scale rotation : ℝ) (reverse : Bool) (r : Vec2 × Prim)
    (h : DimensionBase.add_blockref cfg name insert scale rotation reverse = .ok r) :
    textPrims [r.2] = [] := by
  unfold DimensionBase.add_blockref at h
  cases name with
  | none => cases h
  | some n =>
    simp only [] at h
    by_cases ha : ARROWS.is_acad_arrow n
    · rw [if_pos ha] at h
      cases h
      rfl
    · rw [if_neg ha] at h
      by_cases hb : cfg.blocks.contains n
      · rw [if_pos hb] at h
        cases h
        rfl
      · rw [if_neg hb] at h
        cases h

theorem add_arrows_no_text (cfg : RenderCfg) (a b : Vec2) (angle : ℝ)
    (b1 b2 : Option String) (r : Vec2 × Vec2 × List Prim)
    (h : LinearDimension.add_arrows cfg a b angle b1 b2 = .ok r) :
    textPrims r.2.2 = [] := by
  unfold LinearDimension.add_arrows at h
  by_cases htsz : cfg.st.dimtsz > 0
  · rw [if_pos htsz] at h
    cases h
    rfl
  · rw [if_neg htsz] at h
    cases hr1 : DimensionBase.add_blockref cfg b1 a cfg.st.dimasz angle true with
    | error err => rw [hr1] at h; cases h
    | ok r1 =>
      rw [hr1] at h
      cases hr2 : DimensionBase.add_blockref cfg b2 b cfg.st.dimasz angle false with
      | error err => rw [hr2] at h; cases h
      | ok r2 =>
        rw [hr2] at h
        cases h
        have t1 := add_blockref_no_text cfg b1 a cfg.st.dimasz angle true r1 hr1
        have t2 := add_blockref_no_text cfg b2 b cfg.st.dimasz angle false r2 hr2
        simp [textPrims] at t1 t2 ⊢
        rcases hp : r1.2 <;> rcases hq : r2.2 <;> simp_all [textPrims]

theorem textPrims_amt (cfg : RenderCfg) (dt : String) (pos : Vec2) (a tr : ℝ) :
    textPrims [LinearDimension.add_measurement_text cfg dt pos a tr] =
      [LinearDimension.add_measurement_text cfg dt pos a tr] := rfl

theorem renderText_fields (cfg : RenderCfg) (e : DimEntity) (dt : String) (a b : Vec2) :
    ((LinearDimension.renderText cfg e dt a b).1).angle = e.angle ∧
    ((LinearDimension.renderText cfg e dt a b).1).defpoint = e.defpoint ∧
    ((LinearDimension.renderText cfg e dt a b).1).defpoint2 = e.defpoint2 ∧
    ((LinearDimension.renderText cfg e dt a b).1).defpoint3 = e.defpoint3 ∧
    ((LinearDimension.renderText cfg e dt a b).1).text = e.text ∧
    ((LinearDimension.renderText cfg e dt a b).1).text_rotation = e.text_rotation := by
  unfold LinearDimension.renderText
  by_cases h : dt ≠ ""
  · rw [if_pos h]
    cases e.text_midpoint <;> exact ⟨rfl, rfl, rfl, rfl, rfl, rfl⟩
  · rw [if_neg h]
    exact ⟨rfl, rfl, rfl, rfl, rfl, rfl⟩

theorem renderText_stored (cfg : RenderCfg) (e : DimEntity) (dt : String) (a b : Vec2)
    (p : Vec2) (hp : e.text_midpoint = some p) (hdt : dt ≠ "") :
    LinearDimension.renderText cfg e dt a b =
      (e, [LinearDimension.add_measurement_text cfg dt p e.angle e.text_rotation]) := by
  unfold LinearDimension.renderText
  rw [if_pos hdt, hp]

theorem renderText_computed (cfg : RenderCfg) (e : DimEntity) (dt : String) (a b : Vec2)
    (hp : e.text_midpoint = none) (hdt : dt ≠ "") :
    LinearDimension.renderText cfg e dt a b =
      ({ e with text_midpoint := some (LinearDimension.get_text_midpoint cfg.st a b) },
       [LinearDimension.add_measurement_text cfg dt
         (LinearDimension.get_text_midpoint cfg.st a b) e.angle e.text_rotation]) := by
  unfold LinearDimension.renderText
  rw [if_pos hdt, hp]

theorem renderText_empty (cfg : RenderCfg) (e : DimEntity) (dt : String) (a b : Vec2)
    (hdt : ¬ dt ≠ "") :
    LinearDimension.renderText cfg e dt a b = (e, []) := by
  unfold LinearDimension.renderText
  rw [if_neg hdt]

theorem defpoints_to_wcs_ok (cfg : RenderCfg) (hu : cfg.ucs = PassTroughUCS)
    (e e3 : DimEntity) (h : LinearDimension.defpoints_to_wcs cfg e = .ok e3) :
    (∃ p, e.text_midpoint = some p) ∧ e3 = e := by
  unfold LinearDimension.defpoints_to_wcs at h
  cases htm : e.text_midpoint with
  | none => rw [htm] at h; cases h
  | some p =>
    rw [htm, hu] at h
    refine ⟨⟨p, rfl⟩, ?_⟩
    cases h
    cases e with
    | mk ang dp dp2 dp3 tm tx tr col lay =>
      simp only at htm
      simp [PassTroughUCS, htm]

theorem render_passthrough (cfg : RenderCfg) (hu : cfg.ucs = PassTroughUCS)
    (e e' : DimEntity) (out : List Prim)
    (h : LinearDimension.render cfg e = .ok (e', out)) :
    e' = (LinearDimension.renderText cfg { e with defpoint := renderStart e }
      (renderDimText cfg e) (renderStart e) (renderStop e)).1 ∧
    textPrims out = textPrims (LinearDimension.renderText cfg
      { e with defpoint := renderStart e } (renderDimText cfg e)
      (renderStart e) (renderStop e)).2 ∧
    ∃ p, e'.text_midpoint = some p := by
  simp only [LinearDimension.render] at h
  simp only [renderDimText, renderStart, renderStop]
  split at h
  next err heq => cases h
  next r heq =>
    split at h
    next err2 heq2 => cases h
    next e3 heq2 =>
      injection h with h'
      injection h' with he hout
      obtain ⟨⟨p, hp⟩, he3⟩ := defpoints_to_wcs_ok cfg hu _ e3 heq2
      subst he
      subst he3
      refine ⟨rfl, ?_, p, hp⟩
      rw [← hout]
      rw [textPrims_append, textPrims_append, textPrims_append, textPrims_append]
      rw [textPrims_extLines, add_arrows_no_text cfg _ _ _ _ _ r heq,
        textPrims_dimline, textPrims_defpoints]
      simp

/-- C8: rendering the same DIMENSION entity twice (with the renderer's
default pass-through UCS) without clearing its stored text midpoint produces
the same text primitives, for every entity and resolved style: the first
render computes the midpoint via `get_text_midpoint` (perpendicular offset of
text height over two plus gap, zero for centered `dimtad = 0`, negated for
below `dimtad = 4`) when none is stored and writes it onto the entity, and
the second render finds the stored midpoint and reuses it unchanged. -/
theorem C8_render_idempotent (st : ResolvedStyle) (fmt : ℝ → String)
    (hasExt : String → Bool) (blocks : List String)
    (ac : String → Vec2 → ℝ → ℝ → Bool → Vec2)
    (e e1 e2 : DimEntity) (out1 out2 : List Prim)
    (h1 : LinearDimension.render ⟨st, PassTroughUCS, fmt, hasExt, blocks, ac⟩ e =
      .ok (e1, out1))
    (h2 : LinearDimension.render ⟨st, PassTroughUCS, fmt, hasExt, blocks, ac⟩ e1 =
      .ok (e2, out2)) :
    textPrims out2 = textPrims out1 ∧ e2.text_midpoint = e1.text_midpoint ∧
    (e.text_midpoint = none →
      renderDimText ⟨st, PassTroughUCS, fmt, hasExt, blocks, ac⟩ e ≠ "" →
      e1.text_midpoint =
        some (LinearDimension.get_text_midpoint st (renderStart e) (renderStop e))) := by
  obtain ⟨he1, hout1, p1, hp1⟩ :=
    render_passthrough ⟨st, PassTroughUCS, fmt, hasExt, blocks, ac⟩ rfl e e1 out1 h1
  obtain ⟨he2, hout2, p2, hp2⟩ :=
    render_passthrough ⟨st, PassTroughUCS, fmt, hasExt, blocks, ac⟩ rfl e1 e2 out2 h2
  have hf := renderText_fields ⟨st, PassTroughUCS, fmt, hasExt, blocks, ac⟩
    { e with defpoint := renderStart e }
    (renderDimText ⟨st, PassTroughUCS, fmt, hasExt, blocks, ac⟩ e)
    (renderStart e) (renderStop e)
  have hang : e1.angle = e.angle := by rw [he1, hf.1]
  have hdp : e1.defpoint = renderStart e := by rw [he1, hf.2.1]
  have hdp2 : e1.defpoint2 = e.defpoint2 := by rw [he1, hf.2.2.1]
  have hdp3 : e1.defpoint3 = e.defpoint3 := by rw [he1, hf.2.2.2.1]
  have htxt : e1.text = e.text := by rw [he1, hf.2.2.2.2.1]
  have hrot : e1.text_rotation = e.text_rotation := by rw [he1, hf.2.2.2.2.2]
  have hS2 : renderStart e1 = renderStart e := by
    unfold renderStart
    rw [hang, hdp, hdp2]
    unfold renderStart
    exact intersectRays_absorb _ _ _ _ _ (cross_dirVec _)
  have hT2 : renderStop e1 = renderStop e := by
    unfold renderStop
    rw [hang, hdp, hdp3]
    unfold renderStart
    exact intersectRays_absorb _ _ _ _ _ (cross_dirVec _)
  have hDT2 : renderDimText ⟨st, PassTroughUCS, fmt, hasExt, blocks, ac⟩ e1 =
      renderDimText ⟨st, PassTroughUCS, fmt, hasExt, blocks, ac⟩ e := by
    unfold renderDimText
    rw [hS2, hT2, htxt]
  rw [hS2, hT2, hDT2] at he2 hout2
  by_cases hdt : renderDimText ⟨st, PassTroughUCS, fmt, hasExt, blocks, ac⟩ e ≠ ""
  · -- the label is drawn; case on whether the midpoint was stored before
    cases htm : e.text_midpoint with
    | some p =>
      have hsp : ({ e with defpoint := renderStart e } : DimEntity).text_midpoint =
          some p := htm
      rw [renderText_stored _ _ _ _ _ p hsp hdt] at he1 hout1
      have he1tm : e1.text_midpoint = some p := by rw [he1]; exact htm
      have hsp2 : ({ e1 with defpoint := renderStart e } : DimEntity).text_midpoint =
          some p := he1tm
      rw [renderText_stored _ _ _ _ _ p hsp2 hdt] at he2 hout2
      refine ⟨?_, ?_, ?_⟩
      · rw [hout1, hout2]
        unfold LinearDimension.add_measurement_text
        rw [hang, hrot]
      · rw [he2]
      · intro habs
        exact Option.noConfusion habs
    | none =>
      have hsp : ({ e with defpoint := renderStart e } : DimEntity).text_midpoint =
          none := htm
      rw [renderText_computed _ _ _ _ _ hsp hdt] at he1 hout1
      have he1tm : e1.text_midpoint = some (LinearDimension.get_text_midpoint st
          (renderStart e) (renderStop e)) := by rw [he1]
      have hsp2 : ({ e1 with defpoint := renderStart e } : DimEntity).text_midpoint =
          some (LinearDimension.get_text_midpoint st (renderStart e) (renderStop e)) :=
        he1tm
      rw [renderText_stored _ _ _ _ _ _ hsp2 hdt] at he2 hout2
      refine ⟨?_, ?_, fun _ _ => he1tm⟩
      · rw [hout1, hout2]
        unfold LinearDimension.add_measurement_text
        rw [hang, hrot]
      · rw [he2]
  · -- no label: no text primitives either time, the midpoint is left alone
    rw [renderText_empty _ _ _ _ _ hdt] at he1 hout1
    rw [renderText_empty _ _ _ _ _ hdt] at he2 hout2
    refine ⟨?_, ?_, fun _ hne => absurd hne hdt⟩
    · rw [hout1, hout2]
    · rw [he2, he1]

theorem example_dirU : dirVec (radians 0) = (⟨1, 0⟩ : Vec2) := by
  unfold dirVec radians
  have h : (0 : ℝ) * Real.pi / 180 = 0 := by ring
  rw [h, Real.cos_zero, Real.sin_zero]

theorem example_dirW : dirVec (radians 0 + Real.pi / 2) = (⟨0, 1⟩ : Vec2) := by
  unfold dirVec radians
  have h : (0 : ℝ) * Real.pi / 180 + Real.pi / 2 = Real.pi / 2 := by ring
  rw [h, Real.cos_pi_div_two, Real.sin_pi_div_two]

theorem example_S :
    intersectRays ⟨0, 0⟩ ⟨1, 0⟩ ⟨0, 0⟩ ⟨0, 1⟩ = (⟨0, 0⟩ : Vec2) := by
  unfold intersectRays Vec2.cross
  ext <;>
    simp only [Vec2.add_x, Vec2.add_y, Vec2.sub_x, Vec2.sub_y, Vec2.smul_x, Vec2.smul_y] <;>
    norm_num

theorem example_T :
    intersectRays ⟨0, 0⟩ ⟨1, 0⟩ ⟨3, 0⟩ ⟨0, 1⟩ = (⟨3, 0⟩ : Vec2) := by
  unfold intersectRays Vec2.cross
  ext <;>
    simp only [Vec2.add_x, Vec2.add_y, Vec2.sub_x, Vec2.sub_y, Vec2.smul_x, Vec2.smul_y] <;>
    norm_num

theorem example_midpoint :
    LinearDimension.get_text_midpoint exampleStyle ⟨0, 0⟩ ⟨3, 0⟩ = (⟨3 / 2, 0⟩ : Vec2) := by
  unfold LinearDimension.get_text_midpoint exampleStyle Vec2.orthogonal
    Vec2.normalizeTo Vec2.lerp
  simp only [reduceIte]
  ext <;>
    simp only [Vec2.add_x, Vec2.add_y, Vec2.sub_x, Vec2.sub_y, Vec2.smul_x, Vec2.smul_y] <;>
    norm_num

theorem example_extLines (e : DimEntity) :
    LinearDimension.renderExtLines exampleCfg e ⟨0, 0⟩ ⟨3, 0⟩ = [] := by
  unfold LinearDimension.renderExtLines
  rw [if_neg (by simp [show exampleCfg.st.dimse1 = true from rfl]),
    if_neg (by simp [show exampleCfg.st.dimse2 = true from rfl])]
  rfl

theorem example_arrow_names :
    DimensionBase.get_arrow_names exampleCfg.st = (none, none) := by
  unfold DimensionBase.get_arrow_names
  rw [if_neg (by norm_num [show exampleCfg.st.dimtsz = (1 : ℝ) from rfl])]

theorem example_arrows :
    LinearDimension.add_arrows exampleCfg ⟨0, 0⟩ ⟨3, 0⟩ 0 none none =
      .ok (⟨0, 0⟩, ⟨3, 0⟩,
        [Prim.arrow "OBLIQUE" ⟨0, 0⟩ 0 2 7, Prim.arrow "OBLIQUE" ⟨3, 0⟩ 0 2 7]) := by
  unfold LinearDimension.add_arrows
  rw [if_pos (by norm_num [show exampleCfg.st.dimtsz = (1 : ℝ) from rfl])]
  norm_num [ARROWS.oblique, show exampleCfg.st.dimtsz = (1 : ℝ) from rfl,
    show exampleCfg.st.dimclrd = 7 from rfl]

theorem example_dimline :
    LinearDimension.add_dimension_line exampleCfg ⟨0, 0⟩ ⟨3, 0⟩ none none =
      Prim.line ⟨0, 0⟩ ⟨3, 0⟩ 7 := by
  unfold LinearDimension.add_dimension_line
  simp only [Option.elim, if_true]
  rw [show exampleCfg.st.dimdle = (0 : ℝ) from rfl,
    show exampleCfg.ucs = PassTroughUCS from rfl,
    show exampleCfg.st.dimclrd = 7 from rfl]
  simp only [PassTroughUCS_to_wcs]
  congr 1 <;> ext <;>
    simp only [Vec2.add_x, Vec2.add_y, Vec2.sub_x, Vec2.sub_y, Vec2.smul_x, Vec2.smul_y] <;>
    ring

theorem example_defpoints :
    LinearDimension.add_defpoints exampleCfg
      [exampleEntityAfter.defpoint, exampleEntityAfter.defpoint2,
       exampleEntityAfter.defpoint3] =
      [Prim.point ⟨0, 0⟩ "DEFPOINTS", Prim.point ⟨0, 0⟩ "DEFPOINTS",
       Prim.point ⟨3, 0⟩ "DEFPOINTS"] := by
  unfold LinearDimension.add_defpoints exampleEntityAfter
  simp [show exampleCfg.ucs = PassTroughUCS from rfl, PassTroughUCS_to_wcs]

theorem example_to_wcs :
    LinearDimension.defpoints_to_wcs exampleCfg exampleEntityAfter =
      .ok exampleEntityAfter := by
  unfold LinearDimension.defpoints_to_wcs exampleEntityAfter
  simp [show exampleCfg.ucs = PassTroughUCS from rfl, PassTroughUCS]

theorem example_get_text (m : ℝ) :
    DimensionBase.get_text exampleCfg.fmt "T" m = "T" := by
  unfold DimensionBase.get_text
  rw [if_neg (by decide), if_neg (by decide)]

theorem example_render1 :
    LinearDimension.render exampleCfg exampleEntity =
      .ok (exampleEntityAfter, exampleOut) := by
  have hrt : LinearDimension.renderText exampleCfg
      { angle := 0, defpoint := ⟨0, 0⟩, defpoint2 := ⟨0, 0⟩, defpoint3 := ⟨3, 0⟩,
        text_midpoint := none, text := "T", text_rotation := 0, color := 7,
        layer := "L" } "T" ⟨0, 0⟩ ⟨3, 0⟩ =
      (exampleEntityAfter, [Prim.text "T" ⟨3 / 2, 0⟩ 0 1 7]) := by
    rw [renderText_computed _ _ _ _ _ rfl (by decide)]
    rw [show exampleCfg.st = exampleStyle from rfl, example_midpoint]
    unfold LinearDimension.add_measurement_text
    rw [show exampleCfg.ucs = PassTroughUCS from rfl]
    simp only [PassTroughUCS_to_ocs]
    rw [show exampleCfg.st.dimtxt = (1 : ℝ) from rfl,
      show exampleCfg.st.dimclrt = 7 from rfl]
    norm_num [exampleEntityAfter]
  simp only [LinearDimension.render, exampleEntity, example_dirU, example_dirW]
  rw [example_S, example_T, example_get_text, hrt]
  simp only [example_extLines, example_arrow_names]
  rw [example_arrows]
  simp only [example_dimline, example_defpoints, example_to_wcs, exampleOut]
  rfl

theorem example_render2 :
    LinearDimension.render exampleCfg exampleEntityAfter =
      .ok (exampleEntityAfter, exampleOut) := by
  have hrt : LinearDimension.renderText exampleCfg
      { angle := 0, defpoint := ⟨0, 0⟩, defpoint2 := ⟨0, 0⟩, defpoint3 := ⟨3, 0⟩,
        text_midpoint := some ⟨3 / 2, 0⟩, text := "T", text_rotation := 0, color := 7,
        layer := "L" } "T" ⟨0, 0⟩ ⟨3, 0⟩ =
      (exampleEntityAfter, [Prim.text "T" ⟨3 / 2, 0⟩ 0 1 7]) := by
    rw [renderText_stored _ _ _ _ _ _ rfl (by decide)]
    unfold LinearDimension.add_measurement_text
    rw [show exampleCfg.ucs = PassTroughUCS from rfl]
    simp only [PassTroughUCS_to_ocs]
    rw [show exampleCfg.st.dimtxt = (1 : ℝ) from rfl,
      show exampleCfg.st.dimclrt = 7 from rfl]
    norm_num [exampleEntityAfter]
  simp only [LinearDimension.render, exampleEntityAfter, example_dirU, example_dirW]
  rw [example_S, example_T, example_get_text, hrt]
  simp only [example_extLines, example_arrow_names]
  rw [example_arrows]
  simp only [example_dimline, example_defpoints, example_to_wcs, exampleOut]
  rfl

/-- Witness for C8: the example horizontal dimension renders twice to the
identical primitive list; the first render stores the computed midpoint and
the second reuses it. -/
theorem C8_witness :
    LinearDimension.render exampleCfg exampleEntity =
      .ok (exampleEntityAfter, exampleOut) ∧
    LinearDimension.render exampleCfg exampleEntityAfter =
      .ok (exampleEntityAfter, exampleOut) ∧
    textPrims exampleOut = textPrims exampleOut ∧
    exampleEntityAfter.text_midpoint = exampleEntityAfter.text_midpoint :=
  ⟨example_render1, example_render2,
   (C8_render_idempotent exampleStyle (fun _ => "") (fun _ => true) []
     (fun _ p _ _ _ => p) exampleEntity exampleEntityAfter exampleEntityAfter
     exampleOut exampleOut example_render1 example_render2).1,
   (C8_render_idempotent exampleStyle (fun _ => "") (fun _ => true) []
     (fun _ p _ _ _ => p) exampleEntity exampleEntityAfter exampleEntityAfter
     exampleOut exampleOut example_render1 example_render2).2.1⟩

theorem set_tolerance_flags (s : ToleranceFields) (u : Rat) (lo hf : Option Rat)
    (al : Option String) (dc : Option Int) (lz tz : Option Bool) :
    (DimStyle.set_tolerance s u lo hf al dc lz tz).1.dimtol = 1 ∧
    (DimStyle.set_tolerance s u lo hf al dc lz tz).1.dimlim = 0 := by
  unfold DimStyle.set_tolerance
  constructor <;> (repeat' split) <;> rfl

theorem set_limits_flags (s : ToleranceFields) (u lo hf : Rat)
    (dc : Option Int) (lz tz : Option Bool) :
    (DimStyle.set_limits s u lo hf dc lz tz).dimtol = 0 ∧
    (DimStyle.set_limits s u lo hf dc lz tz).dimlim = 1 := by
  unfold DimStyle.set_limits
  constructor <;> (repeat' split) <;> rfl

/-- C3: the three example equalities of the pure text formatter hold:
`format_text(12.0, dimdec=2, dimzin=0, sep, template)` is "12.00";
`format_text(0.5, dimdec=None, dimzin=leading-suppression)` formats at the
default six places, forces the trailing-suppression bit, and yields ".5";
`format_text(3.0, dimdec=0, dimzin=trailing-suppression, template tail mm)`
yields "3mm". -/
theorem C3_format_text_examples :
    format_text id 12 none (some 2) 0 "." "<>" false = .ok "12.00" ∧
    format_text id (mkRat 1 2) none none 4 "." "<>" false = .ok ".5" ∧
    format_text id 3 none (some 0) 8 "." "<>mm" false = .ok "3mm" := by
  refine ⟨by decide, by decide, by decide⟩

theorem string_toList_append (x y : String) : (x ++ y).toList = x.toList ++ y.toList :=
  String.data_append x y

theorem happend_inj {x y : String} (h : "H" ++ x = "H" ++ y) : x = y := by
  have hd := congrArg String.data h
  rw [String.data_append, String.data_append] at hd
  exact String.ext (List.append_cancel_left hd)

theorem happend_ne_zero (x : String) : "H" ++ x ≠ "0" := by
  intro h
  have hd := congrArg String.data h
  rw [String.data_append] at hd
  simp at hd

theorem is_acad_arrow_iff {a : String} : ARROWS.is_acad_arrow a = true ↔ a ∈ acadArrows := by
  simp [ARROWS.is_acad_arrow]

theorem ne_closed_of_not_arrow {a : String} (h : ARROWS.is_acad_arrow a = false) :
    a ≠ ARROWS.closed_filled := by
  intro heq
  rw [heq] at h
  exact absurd h (by decide)

theorem string_mk_toList (s : String) : String.mk s.toList = s := rfl

theorem arrow_name_arrowBlockName {a : String} (ha : a ∈ acadArrows) :
    ARROWS.arrow_name (arrowBlockName a) = a := by
  unfold ARROWS.arrow_name arrowBlockName
  have h1 : ("_" ++ a).toList = '_' :: a.toList := by
    rw [string_toList_append]
    rfl
  rw [h1]
  simp [string_mk_toList, ha]

theorem create_block_spec {doc : Doc} (hWF : Doc.WF doc) (a : String) :
    Doc.WF (ARROWS.create_block doc a).1 ∧
    (ARROWS.create_block doc a).2 = arrowBlockName a ∧
    ∃ h, assocFind (ARROWS.create_block doc a).1.blocks (arrowBlockName a) = some h ∧
      assocFind (ARROWS.create_block doc a).1.entitydb h = some (arrowBlockName a) := by
  cases hfind : assocFind doc.blocks (arrowBlockName a) with
  | some h =>
    have hcb : ARROWS.create_block doc a = (doc, arrowBlockName a) := by
      simp [ARROWS.create_block, hfind]
    rw [hcb]
    exact ⟨hWF, rfl, h, hfind, (hWF _ (assocFind_mem hfind)).2⟩
  | none =>
    have hcb : ARROWS.create_block doc a =
        (⟨(arrowBlockName a, "H" ++ arrowBlockName a) :: doc.blocks,
          ("H" ++ arrowBlockName a, arrowBlockName a) :: doc.entitydb⟩, arrowBlockName a) := by
      simp [ARROWS.create_block, hfind]
    rw [hcb]
    refine ⟨?_, rfl, "H" ++ arrowBlockName a, assocFind_cons_self .., assocFind_cons_self ..⟩
    intro p hp
    rcases List.mem_cons.mp hp with rfl | hp
    · exact ⟨rfl, assocFind_cons_self ..⟩
    · obtain ⟨hH, hdb⟩ := hWF p hp
      refine ⟨hH, ?_⟩
      rw [assocFind_cons]
      split
      case isTrue heq =>
        exfalso
        rw [hH] at heq
        have hpa := happend_inj heq
        refine assocFind_eq_none hfind p.2 ?_
        have hpeq : p = (arrowBlockName a, p.2) := by
          cases p
          simp_all
        rw [← hpeq]
        exact hp
      case isFalse hne => exact hdb

theorem get_arrow_block_name_of_handle {doc : Doc} (hWF : Doc.WF doc) (s : ArrowFields)
    (attr B h : String) (hattr : assocFind s.attrs attr = some h)
    (hmem : (B, h) ∈ doc.blocks) :
    DimStyle.get_arrow_block_name doc s attr = ARROWS.arrow_name B := by
  have hH : h = "H" ++ B := (hWF _ hmem).1
  have hdb : assocFind doc.entitydb h = some B := (hWF _ hmem).2
  unfold DimStyle.get_arrow_block_name
  rw [hattr]
  rw [hH] at hdb ⊢
  simp [happend_ne_zero B, get_block_name_by_handle, hdb]

theorem set_blk_handle_builtin {doc : Doc} (hWF : Doc.WF doc) (s : ArrowFields)
    (attr a : String) (ha : ARROWS.is_acad_arrow a = true)
    (hne : a ≠ ARROWS.closed_filled) :
    ∃ doc' s', DimStyle.set_blk_handle doc s attr a = .ok (doc', s') ∧
      DimStyle.get_arrow_block_name doc' s' attr = a ∧ Doc.WF doc' := by
  obtain ⟨hWF', hbn, h, hfind, hdb⟩ := create_block_spec hWF a
  refine ⟨(ARROWS.create_block doc a).1, s.set_dxf_attrib attr h, ?_, ?_, hWF'⟩
  · unfold DimStyle.set_blk_handle
    rw [if_neg hne, if_pos ha]
    show DimStyle.store_blk_handle (ARROWS.create_block doc a).1 s attr a
      (ARROWS.create_block doc a).2 = _
    rw [hbn]
    unfold DimStyle.store_blk_handle
    rw [hfind]
  · rw [get_arrow_block_name_of_handle hWF' (s.set_dxf_attrib attr h) attr
      (arrowBlockName a) h (assocFind_cons_self ..) (assocFind_mem hfind)]
    exact arrow_name_arrowBlockName (is_acad_arrow_iff.mp ha)

theorem set_blk_handle_block {doc : Doc} (hWF : Doc.WF doc) (s : ArrowFields)
    (attr B h : String) (hB : assocFind doc.blocks B = some h)
    (hna : ARROWS.is_acad_arrow B = false) :
    DimStyle.set_blk_handle doc s attr B = .ok (doc, s.set_dxf_attrib attr h) ∧
    DimStyle.get_arrow_block_name doc (s.set_dxf_attrib attr h) attr =
      ARROWS.arrow_name B := by
  have hne := ne_closed_of_not_arrow hna
  constructor
  · unfold DimStyle.set_blk_handle
    rw [if_neg hne, hna]
    simp only [Bool.false_eq_true, if_false]
    unfold DimStyle.store_blk_handle
    rw [hB]
  · exact get_arrow_block_name_of_handle hWF (s.set_dxf_attrib attr h) attr B h
      (assocFind_cons_self ..) (assocFind_mem hB)

theorem get_arrow_block_name_unset (doc : Doc) (s : ArrowFields) (attr : String)
    (h : assocFind s.attrs attr = none) :
    DimStyle.get_arrow_block_name doc s attr = ARROWS.closed_filled := by
  simp [DimStyle.get_arrow_block_name, h]

theorem get_arrow_block_name_zero (doc : Doc) (s : ArrowFields) (attr : String)
    (h : assocFind s.attrs attr = some "0") :
    DimStyle.get_arrow_block_name doc s attr = ARROWS.closed_filled := by
  simp [DimStyle.get_arrow_block_name, h]

/-- C4: tolerance display and limits display are mutually exclusive regardless
of call order: `set_tolerance` always leaves `dimtol = 1, dimlim = 0`,
`set_limits` always leaves `dimlim = 1, dimtol = 0` (whatever the other
arguments and the prior field state), so `set_tolerance` followed by
`set_limits` ends at `dimtol = 0, dimlim = 1`, the reverse order ends at
`dimtol = 1, dimlim = 0`, and at most one of the two flags is enabled
after any setter completes. -/
theorem C4_tolerance_limits_mutually_exclusive
    (s : ToleranceFields) (u : Rat) (lo hf : Option Rat) (al : Option String)
    (dc : Option Int) (lz tz : Option Bool)
    (u' lo' hf' : Rat) (dc' : Option Int) (lz' tz' : Option Bool) :
    ((DimStyle.set_tolerance s u lo hf al dc lz tz).1.dimtol = 1 ∧
     (DimStyle.set_tolerance s u lo hf al dc lz tz).1.dimlim = 0) ∧
    ((DimStyle.set_limits s u' lo' hf' dc' lz' tz').dimlim = 1 ∧
     (DimStyle.set_limits s u' lo' hf' dc' lz' tz').dimtol = 0) ∧
    ((DimStyle.set_limits (DimStyle.set_tolerance s u lo hf al dc lz tz).1
        u' lo' hf' dc' lz' tz').dimtol = 0 ∧
     (DimStyle.set_limits (DimStyle.set_tolerance s u lo hf al dc lz tz).1
        u' lo' hf' dc' lz' tz').dimlim = 1) ∧
    ((DimStyle.set_tolerance (DimStyle.set_limits s u' lo' hf' dc' lz' tz')
        u lo hf al dc lz tz).1.dimtol = 1 ∧
     (DimStyle.set_tolerance (DimStyle.set_limits s u' lo' hf' dc' lz' tz')
        u lo hf al dc lz tz).1.dimlim = 0) := by
  refine ⟨set_tolerance_flags .., ?_, ?_, set_tolerance_flags ..⟩
  · exact ⟨(set_limits_flags ..).2, (set_limits_flags ..).1⟩
  · exact ⟨(set_limits_flags ..).1, (set_limits_flags ..).2⟩

theorem set_arrows_blocks {doc : Doc} (hWF : Doc.WF doc) (s : ArrowFields)
    (B1 B2 B3 h1 h2 h3 : String)
    (hB1 : assocFind doc.blocks B1 = some h1) (hna1 : ARROWS.is_acad_arrow B1 = false)
    (hB2 : assocFind doc.blocks B2 = some h2) (hna2 : ARROWS.is_acad_arrow B2 = false)
    (hB3 : assocFind doc.blocks B3 = some h3) (hna3 : ARROWS.is_acad_arrow B3 = false) :
    DimStyle.set_arrows doc s B1 B2 B3 =
      .ok (doc, ⟨("dimblk2_handle", h3) :: ("dimblk1_handle", h2) ::
        ("dimblk_handle", h1) :: s.attrs, 0⟩) := by
  have e1 := (set_blk_handle_block hWF s "dimblk_handle" B1 h1 hB1 hna1).1
  have e2 := (set_blk_handle_block hWF (s.set_dxf_attrib "dimblk_handle" h1)
    "dimblk1_handle" B2 h2 hB2 hna2).1
  have e3 := (set_blk_handle_block hWF
    ((s.set_dxf_attrib "dimblk_handle" h1).set_dxf_attrib "dimblk1_handle" h2)
    "dimblk2_handle" B3 h3 hB3 hna3).1
  have hp1 : (!(ARROWS.is_acad_arrow B1) && B1 != "" &&
      (assocFind doc.blocks B1).isNone) = false := by
    rw [hB1]
    simp
  have hp2 : (!(ARROWS.is_acad_arrow B2) && B2 != "" &&
      (assocFind doc.blocks B2).isNone) = false := by
    rw [hB2]
    simp
  have hp3 : (!(ARROWS.is_acad_arrow B3) && B3 != "" &&
      (assocFind doc.blocks B3).isNone) = false := by
    rw [hB3]
    simp
  unfold DimStyle.set_arrows
  rw [e1]
  simp only []
  rw [e2]
  simp only []
  rw [e3]
  simp only [List.find?, hp1, hp2, hp3]
  rfl

/-- C5: arrow names round-trip through the handle indirection: a built-in
arrow name set via the dimblk/dimblk1/dimblk2 setters reads back as the
canonical built-in name; an existing block's name reads back verbatim
(re-mapped through `ARROWS.arrow_name`, an identity on names that do not
match a built-in arrow's block name); the closed-filled sentinel round-trips
through a discarded (unset) handle attribute, and a stored zero handle also
reads back as closed filled; `set_arrows` over three existing block names
stores all three handles and the three getters read the same names back. -/
theorem C5_arrow_name_roundtrip (doc : Doc) (s : ArrowFields) (hWF : Doc.WF doc) :
    (∀ a, ARROWS.is_acad_arrow a = true → a ≠ ARROWS.closed_filled →
      ∃ doc' s', DimStyle.set_dimblk doc s a = .ok (doc', s') ∧
        DimStyle.get_dimblk doc' s' = a) ∧
    (∀ a, ARROWS.is_acad_arrow a = true → a ≠ ARROWS.closed_filled →
      ∃ doc' s', DimStyle.set_dimblk1 doc s a = .ok (doc', s') ∧
        DimStyle.get_dimblk1 doc' s' = a) ∧
    (∀ a, ARROWS.is_acad_arrow a = true → a ≠ ARROWS.closed_filled →
      ∃ doc' s', DimStyle.set_dimblk2 doc s a = .ok (doc', s') ∧
        DimStyle.get_dimblk2 doc' s' = a) ∧
    (∀ B h, assocFind doc.blocks B = some h → ARROWS.is_acad_arrow B = false →
      ARROWS.arrow_name B = B →
      DimStyle.set_dimblk doc s B = .ok (doc, s.set_dxf_attrib "dimblk_handle" h) ∧
      DimStyle.get_dimblk doc (s.set_dxf_attrib "dimblk_handle" h) = B) ∧
    (DimStyle.set_dimblk doc s ARROWS.closed_filled =
        .ok (doc, s.discard "dimblk_handle") ∧
      assocFind (s.discard "dimblk_handle").attrs "dimblk_handle" = none ∧
      DimStyle.get_dimblk doc (s.discard "dimblk_handle") = ARROWS.closed_filled) ∧
    (assocFind s.attrs "dimblk_handle" = some "0" →
      DimStyle.get_dimblk doc s = ARROWS.closed_filled) ∧
    (∀ B1 B2 B3 h1 h2 h3,
      assocFind doc.blocks B1 = some h1 → ARROWS.is_acad_arrow B1 = false →
        ARROWS.arrow_name B1 = B1 →
      assocFind doc.blocks B2 = some h2 → ARROWS.is_acad_arrow B2 = false →
        ARROWS.arrow_name B2 = B2 →
      assocFind doc.blocks B3 = some h3 → ARROWS.is_acad_arrow B3 = false →
        ARROWS.arrow_name B3 = B3 →
      ∃ s', DimStyle.set_arrows doc s B1 B2 B3 = .ok (doc, s') ∧
        DimStyle.get_dimblk doc s' = B1 ∧ DimStyle.get_dimblk1 doc s' = B2 ∧
        DimStyle.get_dimblk2 doc s' = B3) := by
  refine ⟨?_, ?_, ?_, ?_, ?_, ?_, ?_⟩
  · intro a ha hne
    exact (set_blk_handle_builtin hWF s "dimblk_handle" a ha hne).imp
      (fun d hd => hd.imp (fun s' hs => ⟨hs.1, hs.2.1⟩))
  · intro a ha hne
    exact (set_blk_handle_builtin hWF s "dimblk1_handle" a ha hne).imp
      (fun d hd => hd.imp (fun s' hs => ⟨hs.1, hs.2.1⟩))
  · intro a ha hne
    exact (set_blk_handle_builtin hWF s "dimblk2_handle" a ha hne).imp
      (fun d hd => hd.imp (fun s' hs => ⟨hs.1, hs.2.1⟩))
  · intro B h hB hna hvn
    have hb := set_blk_handle_block hWF s "dimblk_handle" B h hB hna
    exact ⟨hb.1, by rw [DimStyle.get_dimblk, hb.2, hvn]⟩
  · refine ⟨?_, assocFind_filter_ne s.attrs "dimblk_handle", ?_⟩
    · unfold DimStyle.set_dimblk DimStyle.set_blk_handle
      rw [if_pos rfl]
    · exact get_arrow_block_name_unset doc _ _ (assocFind_filter_ne s.attrs "dimblk_handle")
  · intro h
    exact get_arrow_block_name_zero doc s _ h
  · intro B1 B2 B3 h1 h2 h3 hB1 hna1 hvn1 hB2 hna2 hvn2 hB3 hna3 hvn3
    refine ⟨⟨("dimblk2_handle", h3) :: ("dimblk1_handle", h2) ::
      ("dimblk_handle", h1) :: s.attrs, 0⟩,
      set_arrows_blocks hWF s B1 B2 B3 h1 h2 h3 hB1 hna1 hB2 hna2 hB3 hna3, ?_, ?_, ?_⟩
    · have hl : assocFind (("dimblk2_handle", h3) :: ("dimblk1_handle", h2) ::
          ("dimblk_handle", h1) :: s.attrs) "dimblk_handle" = some h1 := by
        rw [assocFind_cons, if_neg (by decide), assocFind_cons, if_neg (by decide),
          assocFind_cons_self]
      rw [DimStyle.get_dimblk,
        get_arrow_block_name_of_handle hWF _ _ B1 h1 hl (assocFind_mem hB1), hvn1]
    · have hl : assocFind (("dimblk2_handle", h3) :: ("dimblk1_handle", h2) ::
          ("dimblk_handle", h1) :: s.attrs) "dimblk1_handle" = some h2 := by
        rw [assocFind_cons, if_neg (by decide), assocFind_cons_self]
      rw [DimStyle.get_dimblk1,
        get_arrow_block_name_of_handle hWF _ _ B2 h2 hl (assocFind_mem hB2), hvn2]
    · have hl : assocFind (("dimblk2_handle", h3) :: ("dimblk1_handle", h2) ::
          ("dimblk_handle", h1) :: s.attrs) "dimblk2_handle" = some h3 := by
        rw [assocFind_cons_self]
      rw [DimStyle.get_dimblk2,
        get_arrow_block_name_of_handle hWF _ _ B3 h3 hl (assocFind_mem hB3), hvn3]

/-- Witness for C5: over a document with one block "BOX" (handle "HBOX"), a
built-in arrow round-trips to its canonical name and the block name
round-trips verbatim. -/
theorem C5_witness :
    (∃ doc' s', DimStyle.set_dimblk ⟨[("BOX", "HBOX")], [("HBOX", "BOX")]⟩ ⟨[], 0⟩
        "OBLIQUE" = .ok (doc', s') ∧ DimStyle.get_dimblk doc' s' = "OBLIQUE") ∧
    (DimStyle.set_dimblk ⟨[("BOX", "HBOX")], [("HBOX", "BOX")]⟩ ⟨[], 0⟩ "BOX" =
        .ok (⟨[("BOX", "HBOX")], [("HBOX", "BOX")]⟩,
          ArrowFields.set_dxf_attrib ⟨[], 0⟩ "dimblk_handle" "HBOX") ∧
      DimStyle.get_dimblk ⟨[("BOX", "HBOX")], [("HBOX", "BOX")]⟩
        (ArrowFields.set_dxf_attrib ⟨[], 0⟩ "dimblk_handle" "HBOX") = "BOX") := by
  have hWF : Doc.WF ⟨[("BOX", "HBOX")], [("HBOX", "BOX")]⟩ := by
    unfold Doc.WF
    decide
  exact ⟨(C5_arrow_name_roundtrip _ ⟨[], 0⟩ hWF).1 "OBLIQUE" (by decide) (by decide),
    (C5_arrow_name_roundtrip _ ⟨[], 0⟩ hWF).2.2.2.1 "BOX" "HBOX" rfl (by decide) (by decide)⟩

/-- C7 counterexample: setting the unknown arrow name "BAD" raises
`DXFValueError`, but the message is the unquoted `Block BAD does not exist.`
(from `_set_blk_handle`), not the claimed `Block "BAD" does not exist.`; the
same unquoted message propagates out of `set_arrows`. -/
theorem C7_counterexample :
    DimStyle.set_blk_handle ⟨[], []⟩ ⟨[], 0⟩ "dimblk_handle" "BAD" =
      .error (.dxfValueError "Block BAD does not exist.") ∧
    DimStyle.set_arrows ⟨[], []⟩ ⟨[], 0⟩ "" "BAD" "" =
      .error (.dxfValueError "Block BAD does not exist.") ∧
    "Block BAD does not exist." ≠ "Block \"BAD\" does not exist." := by
  refine ⟨by decide, by decide, by decide⟩

/-- C7 (amended): for an arrow-name argument that is neither a recognized
built-in arrow name nor an existing block, `_set_blk_handle` fails with
`DXFValueError` whose message is `Block <name> does not exist.` — it does
report the offending name, but without quotes.  Through `set_arrows` the same
error propagates from the per-attribute setter (the later existence check,
whose message quotes the name but formats the `blk` argument instead of the
offending one, is unreachable on this path). -/
theorem C7_unknown_arrow_raises (doc : Doc) (s : ArrowFields) (attr name : String)
    (hna : ARROWS.is_acad_arrow name = false)
    (hnb : assocFind doc.blocks name = none) :
    DimStyle.set_blk_handle doc s attr name =
      .error (.dxfValueError ("Block " ++ name ++ " does not exist.")) ∧
    DimStyle.set_arrows doc s ARROWS.closed_filled name ARROWS.closed_filled =
      .error (.dxfValueError ("Block " ++ name ++ " does not exist.")) := by
  have hne := ne_closed_of_not_arrow hna
  have herr : ∀ s' : ArrowFields, DimStyle.set_blk_handle doc s' "dimblk1_handle" name =
      .error (.dxfValueError ("Block " ++ name ++ " does not exist.")) := by
    intro s'
    unfold DimStyle.set_blk_handle
    rw [if_neg hne, hna]
    simp only [Bool.false_eq_true, if_false]
    unfold DimStyle.store_blk_handle
    rw [hnb]
  constructor
  · unfold DimStyle.set_blk_handle
    rw [if_neg hne, hna]
    simp only [Bool.false_eq_true, if_false]
    unfold DimStyle.store_blk_handle
    rw [hnb]
  · have h0 : DimStyle.set_blk_handle doc s "dimblk_handle" ARROWS.closed_filled =
        .ok (doc, s.discard "dimblk_handle") := by
      unfold DimStyle.set_blk_handle
      rw [if_pos rfl]
    unfold DimStyle.set_arrows
    rw [h0]
    simp only []
    rw [herr]

/-- Witness for C7 (amended): a concrete document without the block "NOPE". -/
theorem C7_witness :
    DimStyle.set_blk_handle ⟨[("B1", "HB1")], [("HB1", "B1")]⟩ ⟨[], 0⟩
      "dimblk_handle" "NOPE" =
      .error (.dxfValueError "Block NOPE does not exist.") :=
  (C7_unknown_arrow_raises ⟨[("B1", "HB1")], [("HB1", "B1")]⟩ ⟨[], 0⟩
    "dimblk_handle" "NOPE" (by decide) (by decide)).1

/-- C6 counterexample: the linetype getter returns `None` (not "Standard")
when the handle attribute is unset, raises `AttributeError` (the `ocrawing`
misspelling of the drawing attribute) when a handle is stored, and the
text-style getter falls back to "STANDARD" (not "Standard") on a dangling
handle — so lookup failures are neither uniformly logged-and-defaulted nor
do they produce the claimed name. -/
theorem C6_counterexample :
    DimStyle.get_linetype ⟨[], []⟩ ⟨[], 0⟩ = .ok none ∧
    (.ok none : Except PyError (Option String)) ≠ .ok (some "Standard") ∧
    DimStyle.get_ext1_linetype ⟨[], []⟩ ⟨[("dimltex1_handle", "FFFF")], 0⟩ =
      .error .attributeError ∧
    (DimStyle.get_text_style ⟨[], []⟩ ⟨[("dimtxsty_handle", "FFFF")], 0⟩ "S").1 =
      "STANDARD" ∧
    "STANDARD" ≠ "Standard" := by
  refine ⟨by decide, by decide, by decide, by decide, by decide⟩

/-- C6 (amended): the text-style getter never raises: an unset handle logs a
warning and returns "Standard"; a dangling handle logs a warning and returns
the helper default "STANDARD"; a resolvable handle returns the referenced
record's name.  The linetype getters return `None` (with no warning and no
"Standard" fallback) when the handle attribute is unset, and raise
`AttributeError` (via the nonexistent `ocrawing` attribute) whenever a handle
is stored, so their lookup failures are not degraded to a default. -/
theorem C6_textstyle_ltype_getters (doc : Doc) (s : ArrowFields) (styleName : String) :
    (assocFind s.attrs "dimtxsty_handle" = none →
      DimStyle.get_text_style doc s styleName =
        ("Standard", ["DIMSTYLE \"" ++ styleName ++ "\": text style handle not set."])) ∧
    (∀ h, assocFind s.attrs "dimtxsty_handle" = some h →
      assocFind doc.entitydb h = none →
      DimStyle.get_text_style doc s styleName =
        ("STANDARD", ["Invalid text style handle \"" ++ h ++ "\"."])) ∧
    (∀ h n, assocFind s.attrs "dimtxsty_handle" = some h →
      assocFind doc.entitydb h = some n →
      DimStyle.get_text_style doc s styleName = (n, [])) ∧
    (∀ dimvar, assocFind s.attrs dimvar = none →
      DimStyle.get_ltype_name doc s dimvar = .ok none) ∧
    (∀ dimvar h, assocFind s.attrs dimvar = some h →
      DimStyle.get_ltype_name doc s dimvar = .error .attributeError) := by
  refine ⟨?_, ?_, ?_, ?_, ?_⟩
  · intro h
    simp [DimStyle.get_text_style, h]
  · intro h hh hdb
    simp [DimStyle.get_text_style, hh, get_text_style_by_handle, hdb]
  · intro h n hh hdb
    simp [DimStyle.get_text_style, hh, get_text_style_by_handle, hdb]
  · intro dimvar h
    simp [DimStyle.get_ltype_name, h]
  · intro dimvar h hh
    simp [DimStyle.get_ltype_name, hh]

/-- Witness for C6 (amended): concrete unset and stored-handle cases. -/
theorem C6_witness :
    DimStyle.get_text_style ⟨[], []⟩ ⟨[], 0⟩ "Standard" =
      ("Standard", ["DIMSTYLE \"Standard\": text style handle not set."]) ∧
    DimStyle.get_ltype_name ⟨[], []⟩ ⟨[("dimltype_handle", "AB")], 0⟩ "dimltype_handle" =
      .error .attributeError :=
  ⟨(C6_textstyle_ltype_getters ⟨[], []⟩ ⟨[], 0⟩ "Standard").1 rfl,
   (C6_textstyle_ltype_getters ⟨[], []⟩ ⟨[("dimltype_handle", "AB")], 0⟩ "Standard").2.2.2.2
     "dimltype_handle" "AB" rfl⟩

/-- C1: `DimStyleOverride.get(F, D)` resolves in order: cached value first;
then the DIMSTYLE-attribute validity check (AttributeError for unrecognized
names regardless of the override map); then the override map entry; then the
base style value; and the caller default when the base style raises because
the field needs a newer DXF version.  Every successful resolution stores its
result in the cache, and a second get of the same attribute returns the
cached value even if the underlying style record (`baseGet`) changed in
between. -/
theorem C1_DimStyleOverride_get_resolution {V : Type}
    (supports : String → Bool) (baseGet : String → V → Option V)
    (o : DimStyleOverride V) (F : String) (D : V) :
    (∀ v, assocFind o.cache F = some v →
      DimStyleOverride.get supports baseGet o F D = .ok (v, o)) ∧
    (assocFind o.cache F = none → supports F = false →
      DimStyleOverride.get supports baseGet o F D = .error .dxfAttributeError) ∧
    (∀ v, assocFind o.cache F = none → supports F = true →
      assocFind o.override F = some v →
      DimStyleOverride.get supports baseGet o F D =
        .ok (v, ⟨o.override, (F, v) :: o.cache⟩)) ∧
    (∀ v, assocFind o.cache F = none → supports F = true →
      assocFind o.override F = none → baseGet F D = some v →
      DimStyleOverride.get supports baseGet o F D =
        .ok (v, ⟨o.override, (F, v) :: o.cache⟩)) ∧
    (assocFind o.cache F = none → supports F = true →
      assocFind o.override F = none → baseGet F D = none →
      DimStyleOverride.get supports baseGet o F D =
        .ok (D, ⟨o.override, (F, D) :: o.cache⟩)) ∧
    (∀ v o', DimStyleOverride.get supports baseGet o F D = .ok (v, o') →
      assocFind o'.cache F = some v) ∧
    (∀ v o' (supports' : String → Bool) (baseGet' : String → V → Option V) (D' : V),
      DimStyleOverride.get supports baseGet o F D = .ok (v, o') →
      DimStyleOverride.get supports' baseGet' o' F D' = .ok (v, o')) := by
  have hcached : ∀ v, assocFind o.cache F = some v →
      DimStyleOverride.get supports baseGet o F D = .ok (v, o) := by
    intro v h
    simp [DimStyleOverride.get, h]
  have hstore : ∀ v o', DimStyleOverride.get supports baseGet o F D = .ok (v, o') →
      assocFind o'.cache F = some v := by
    intro v o' h
    unfold DimStyleOverride.get at h
    cases hc : assocFind o.cache F with
    | some w =>
      simp [hc] at h
      obtain ⟨hv, ho⟩ := h
      simp [← ho, ← hv, hc]
    | none =>
      simp [hc] at h
      by_cases hs : supports F
      · simp [hs] at h
        obtain ⟨hv, ho⟩ := h
        simp [← ho, ← hv, assocFind_cons_self]
      · simp [hs] at h
  refine ⟨hcached, ?_, ?_, ?_, ?_, hstore, ?_⟩
  · intro hc hs
    simp [DimStyleOverride.get, hc, hs]
  · intro v hc hs hov
    simp [DimStyleOverride.get, hc, hs, hov]
  · intro v hc hs hov hb
    simp [DimStyleOverride.get, hc, hs, hov, hb]
  · intro hc hs hov hb
    simp [DimStyleOverride.get, hc, hs, hov, hb]
  · intro v o' supports' baseGet' D' h
    have hc := hstore v o' h
    have hval : DimStyleOverride.get supports' baseGet' o' F D' = .ok (v, o') := by
      simp [DimStyleOverride.get, hc]
    exact hval

/-- Witness for C1: with a one-entry override map and a base style whose get
always raises (an R12 document asked for an R2000 attribute), the resolver
returns the override value, caches it, and a second get against a different
base style returns the cached value. -/
theorem C1_witness :
    DimStyleOverride.get (fun a => a == "dimtxt") (fun _ _ => none)
      ⟨[("dimtxt", (5 : Nat))], []⟩ "dimtxt" 7 =
      .ok (5, ⟨[("dimtxt", 5)], [("dimtxt", 5)]⟩) ∧
    DimStyleOverride.get (fun _ => false) (fun _ _ => some 9)
      ⟨[("dimtxt", 5)], [("dimtxt", 5)]⟩ "dimtxt" 7 =
      .ok (5, ⟨[("dimtxt", 5)], [("dimtxt", 5)]⟩) := by
  constructor
  · exact (C1_DimStyleOverride_get_resolution (fun a => a == "dimtxt")
      (fun _ _ => none) ⟨[("dimtxt", (5 : Nat))], []⟩ "dimtxt" 7).2.2.1 5
      (by rfl) (by rfl) (by rfl)
  · exact (C1_DimStyleOverride_get_resolution (fun _ => false)
      (fun _ _ => some 9) ⟨[("dimtxt", (5 : Nat))], [("dimtxt", 5)]⟩ "dimtxt" 7).1 5
      (by rfl)

/-- C10: the DIMENSION entity's `text` attribute overrides the computed label:
a single space suppresses the measurement text entirely, the empty string and
the literal template token yield the formatted measurement, and any other
text is used verbatim, bypassing the formatter. -/
theorem C10_get_text_override {α : Type} (fmt : α → String) (m : α) :
    DimensionBase.get_text fmt " " m = "" ∧
    DimensionBase.get_text fmt "" m = fmt m ∧
    DimensionBase.get_text fmt "<>" m = fmt m ∧
    (∀ t : String, t ≠ " " → t ≠ "" → t ≠ "<>" →
      DimensionBase.get_text fmt t m = t) := by
  refine ⟨rfl, rfl, rfl, ?_⟩
  intro t h1 h2 h3
  simp [DimensionBase.get_text, h1, h2, h3]

/-- Witness for C10: a concrete user-override label is returned verbatim. -/
theorem C10_witness :
    DimensionBase.get_text (fun q : Rat => toString q) "5mm" 3 = "5mm" :=
  (C10_get_text_override (fun q : Rat => toString q) 3).2.2.2 "5mm"
    (by decide) (by decide) (by decide)

/-- C9: every child obtained from expanding a DIMENSION entity via
`virtual_entities()` has its transparency set to fully opaque (0.0) before it
is drawn, for every successfully expanded child. -/
theorem C9_dimension_children_opaque
    (virtual_entities : Except String (List ChildEntity)) (c : ChildEntity)
    (h : c ∈ draw_composite_dimension virtual_entities) :
    c.transparency = 0 := by
  cases virtual_entities with
  | error e => simp [draw_composite_dimension] at h
  | ok cs =>
    simp [draw_composite_dimension] at h
    obtain ⟨a, _, ha⟩ := h
    simp [← ha]

/-- Witness for C9: a concrete fully-transparent child comes out opaque. -/
theorem C9_witness :
    (⟨"LINE", 0⟩ : ChildEntity) ∈
      draw_composite_dimension (.ok [⟨"LINE", 1⟩]) ∧
    (⟨"LINE", 0⟩ : ChildEntity).transparency = 0 :=
  ⟨by decide, C9_dimension_children_opaque (.ok [⟨"LINE", 1⟩]) ⟨"LINE", 0⟩ (by decide)⟩

end Ezdxf
